import Mathlib

/-!
Shallow embedding of the SignalX backend core (signal evaluation, entry-price
calculation, and the intraday backtest simulator) and proofs about it.

JS numbers are modelled as rationals (ℚ): every value reached by the code on
finite inputs is an exact rational, `Math.round(x)` is `⌊x + 1/2⌋` (round half
toward positive infinity), and nullable values are `Option ℚ`.  Strings keep
the exact source spellings.
-/

namespace SignalX

/-- JS Math.round: nearest integer, half rounds toward positive infinity. -/
def jsRound (x : ℚ) : ℤ := ⌊x + 1/2⌋

/-- roundToPaise(v) = Math.round(v * 100) / 100 (src/unnamed/part_005). -/
def roundToPaise (x : ℚ) : ℚ := (jsRound (x * 100) : ℚ) / 100

/-- Rounding to one decimal, Math.round(v * 10) / 10 (rsiCalculator.js). -/
def round1 (x : ℚ) : ℚ := (jsRound (x * 10) : ℚ) / 10

/-- clamp(value, min, max) from src/unnamed/part_005 (finite inputs). -/
def clampQ (x lo hi : ℚ) : ℚ := min (max x lo) hi

/-- JS truthiness of a nullable number: undefined/null and 0 are falsy. -/
def truthyNum (o : Option ℚ) : Bool :=
  match o with
  | some v => v != 0
  | none => false

/-- `Number.isFinite(v) && v > 0` for a nullable number. -/
def finPos (o : Option ℚ) : Bool :=
  match o with
  | some v => 0 < v
  | none => false

/-- `a || b` on nullable strings: empty and missing strings are falsy. -/
def orStr (a b : Option String) : Option String :=
  match a with
  | some s => if s = "" then b else some s
  | none => b

/-! ### Round-trip cost model (src/unnamed/part_005, lines 294-321) -/

def DEFAULT_INTRADAY_ROUND_TRIP_COST_BPS : ℚ := 18
def DEFAULT_SWING_ROUND_TRIP_COST_BPS : ℚ := 30

/-- calculateRiskReward: (target1 - entry) / (entry - stop), null on
non-positive risk. -/
def calculateRiskReward (entryPrice stopLoss target1 : ℚ) : Option ℚ :=
  let risk := entryPrice - stopLoss
  let reward := target1 - entryPrice
  if risk ≤ 0 then none else some (reward / risk)

structure CostStats where
  riskRewardGross : ℚ
  riskRewardAfterCosts : Option ℚ
  estimatedRoundTripCostPerShare : ℚ
  estimatedRoundTripCostPct : ℚ
deriving Repr, DecidableEq

/-- applyRoundTripCostModel from src/unnamed/part_005. -/
def applyRoundTripCostModel (entryPrice stopLoss target1 costBps : ℚ) :
    Option CostStats :=
  if entryPrice ≤ 0 then none else
  match calculateRiskReward entryPrice stopLoss target1 with
  | none => none
  | some rrGross =>
    let effectiveCostBps := if 0 ≤ costBps then costBps else 0
    let roundTripCostPerShare := entryPrice * (effectiveCostBps / 10000)
    let grossRiskPerShare := max (entryPrice - stopLoss) 0
    let grossRewardPerShare := max (target1 - entryPrice) 0
    let netRiskPerShare := grossRiskPerShare + roundTripCostPerShare
    let netRewardPerShare := max (grossRewardPerShare - roundTripCostPerShare) 0
    let rrNet : Option ℚ :=
      if 0 < netRiskPerShare then some (netRewardPerShare / netRiskPerShare)
      else none
    some ⟨rrGross, rrNet, roundTripCostPerShare, effectiveCostBps / 100⟩

/-! ### Backtest exit tie-break (src/unnamed/part_003, pickEntryExitForCandle) -/

structure ExitDecision where
  exitType : String
  exitPrice : ℚ
  reason : String
deriving Repr, DecidableEq

/-- pickEntryExitForCandle: stop-loss has priority when a candle range hits
both the stop and a target; target2 beats target1. -/
def pickEntryExitForCandle (low high stopLoss target1 target2 : ℚ) :
    Option ExitDecision :=
  let hitSL := low ≤ stopLoss
  let hitT1 := target1 ≤ high
  let hitT2 := target2 ≤ high
  if hitSL ∧ (hitT1 ∨ hitT2) then
    some ⟨"stop_loss", stopLoss, "sl_and_target_same_candle_stop_priority"⟩
  else if hitSL then some ⟨"stop_loss", stopLoss, "stop_loss_hit"⟩
  else if hitT2 then some ⟨"target2_hit", target2, "target2_hit"⟩
  else if hitT1 then some ⟨"target1_hit", target1, "target1_hit"⟩
  else none

/-! ### Wilder RSI (src/services/rsiCalculator.js) -/

/-- average(arr) for an array of (non-null) numbers: null when empty. -/
def averageJS (l : List ℚ) : Option ℚ :=
  if l.isEmpty then none else some (l.sum / l.length)

/-- One Wilder smoothing step: (avg*(period-1) + x) / period. -/
def wilderStep (period avg x : ℚ) : ℚ := (avg * (period - 1) + x) / period

/-- The smoothed (avgGain, avgLoss) pair of computeRSI, or null when the
seed averages are unavailable. -/
def computeRSIAverages (closes : List ℚ) (period : ℕ) : Option (ℚ × ℚ) :=
  let changes := (closes.zip closes.tail).map fun p => p.2 - p.1
  let gains := changes.map fun c => max 0 c
  let losses := changes.map fun c => max 0 (-c)
  match averageJS (gains.take period), averageJS (losses.take period) with
  | some ag0, some al0 =>
      some (((gains.drop period).zip (losses.drop period)).foldl
        (fun acc p => (wilderStep period acc.1 p.1, wilderStep period acc.2 p.2))
        (ag0, al0))
  | _, _ => none

/-- computeRSI(closes, period): null for len(closes) ≤ period, and when
avgLoss = 0 the code sets RS (not RSI) to 100. -/
def computeRSI (closes : List ℚ) (period : ℕ) : Option ℚ :=
  if closes.length ≤ period then none else
  match computeRSIAverages closes period with
  | none => none
  | some (avgGain, avgLoss) =>
      let rs := if avgLoss = 0 then 100 else avgGain / avgLoss
      some (round1 (100 - 100 / (1 + rs)))

/-! ### Adaptive swing quality threshold (src/routes/swing.js) -/

/-- Stable insertion sort, ascending; models the JS numeric sort in
deriveAdaptiveQualityThreshold. -/
def insertAsc (x : ℚ) : List ℚ → List ℚ
  | [] => [x]
  | y :: ys => if x ≤ y then x :: y :: ys else y :: insertAsc x ys

def sortAsc (l : List ℚ) : List ℚ := l.foldr insertAsc []

/-- deriveAdaptiveQualityThreshold: 40 on an empty batch or a batch with no
finite scores, else round(p60*0.6 + median*0.4) clamped to [34, 56]. -/
def deriveAdaptiveQualityThreshold (scored : List (Option ℚ)) : ℚ :=
  if scored.isEmpty then 40 else
  let scores := sortAsc (scored.filterMap id)
  if scores.isEmpty then 40 else
  let n := scores.length
  let p60 := scores.getD ((n - 1) * 3 / 5) 0
  let median := scores.getD ((n - 1) / 2) 0
  let raw : ℚ := (jsRound (p60 * (6/10) + median * (4/10)) : ℚ)
  min (max raw 34) 56

/-! ### Pick sanitization (src/unnamed/part_003, sanitizePicks) -/

structure RawPick where
  symbol : Option String
  normalizedSymbol : Option String
  resolvedSymbol : Option String
  companyName : Option String
  entryType : Option String
  entryReason : Option String
  entryPrice : Option ℚ
  stopLoss : Option ℚ
  target1 : Option ℚ
  target2 : Option ℚ
  currentPrice : Option ℚ
  riskReward : Option ℚ
  riskRewardAfterCosts : Option ℚ
  riskRewardGross : Option ℚ
  estimatedRoundTripCostPct : Option ℚ
  volatilityPct : Option ℚ
deriving Repr, DecidableEq

structure SanePick where
  symbol : String
  normalizedSymbol : Option String
  resolvedSymbol : Option String
  companyName : Option String
  entryType : Option String
  entryReason : Option String
  entryPrice : Option ℚ
  stopLoss : Option ℚ
  target1 : Option ℚ
  target2 : Option ℚ
  currentPrice : Option ℚ
  riskReward : Option ℚ
  riskRewardAfterCosts : Option ℚ
  riskRewardGross : Option ℚ
  estimatedRoundTripCostPct : Option ℚ
  volatilityPct : Option ℚ
deriving Repr, DecidableEq

/-- Char/String.toLowerCase over the char list (the library toLower is
defined by well-founded recursion on byte positions and does not reduce). -/
def lowerChar (c : Char) : Char :=
  if 'A' ≤ c ∧ c ≤ 'Z' then Char.ofNat (c.toNat + 32) else c

def jsToLower (s : String) : String :=
  String.mk (s.data.map lowerChar)

/-- JS String.prototype.trim: strip leading and trailing whitespace. -/
def jsTrim (s : String) : String :=
  ⟨((s.data.dropWhile Char.isWhitespace).reverse.dropWhile
      Char.isWhitespace).reverse⟩

/-- The map stage of sanitizePicks (toFiniteNumber is the identity on the
already-finite rationals of the model). -/
def mapPick (p : RawPick) : SanePick where
  symbol := jsTrim (p.symbol.getD "")
  normalizedSymbol := p.normalizedSymbol
  resolvedSymbol := orStr p.resolvedSymbol (orStr p.symbol none)
  companyName := orStr p.companyName (orStr p.symbol none)
  entryType := orStr p.entryType none
  entryReason := orStr p.entryReason none
  entryPrice := p.entryPrice
  stopLoss := p.stopLoss
  target1 := p.target1
  target2 := p.target2
  currentPrice := p.currentPrice
  riskReward := p.riskReward
  riskRewardAfterCosts := p.riskRewardAfterCosts
  riskRewardGross := p.riskRewardGross
  estimatedRoundTripCostPct := p.estimatedRoundTripCostPct
  volatilityPct := p.volatilityPct

/-- The filter stage of sanitizePicks. -/
def sanePickOK (p : SanePick) : Bool :=
  match p.entryPrice, p.stopLoss, p.target1, p.target2 with
  | some e, some s, some t1, some t2 =>
      p.symbol != "" && decide (0 < e) && decide (0 < s) &&
      decide (e < t1) && decide (t1 < t2) && decide (s < e)
  | _, _, _, _ => false

/-- sanitizePicks: drop null entries, coerce fields, keep only picks with a
non-empty symbol and the strict price ordering. -/
def sanitizePicks (picks : List (Option RawPick)) : List SanePick :=
  ((picks.filterMap id).map mapPick).filter sanePickOK

/-! ### Intraday signal evaluator (src/unnamed/part_005, evaluateIntraday) -/

structure Verdict where
  label : String
  sentiment : String
  reasons : List String
deriving Repr, DecidableEq

/-- getBreakoutConfirmation: resistance truthy, price 0.2% above it, and a
volume spike. -/
def getBreakoutConfirmation (resistance : Option ℚ) (price : ℚ)
    (volumeSpike : Bool) : Bool :=
  truthyNum resistance && decide (resistance.getD 0 * (1002/1000) < price) &&
    volumeSpike

structure IntradayEvalArgs where
  rsi : ℚ
  gapOpenPct : Option ℚ
  gapNowPct : Option ℚ
  volumeSpike : Bool
  price : ℚ
  vwap : Option ℚ
  support : Option ℚ
  resistance : Option ℚ
  candleColor : String
  marketCap : Option ℚ
deriving Repr, DecidableEq

/-- Effective gap of the current evaluator: gapNowPct ?? gapOpenPct ?? 0. -/
def effectiveGapIntraday (gapNowPct gapOpenPct : Option ℚ) : ℚ :=
  gapNowPct.getD (gapOpenPct.getD 0)

/-- The chop filter condition of the current evaluateIntraday (tested before
everything else, including the liquidity filter). -/
def intradayChopCond (a : IntradayEvalArgs) : Bool :=
  let vwapV := a.vwap.getD 0
  let effectiveGap := effectiveGapIntraday a.gapNowPct a.gapOpenPct
  decide (|effectiveGap| < 2/10) && !a.volumeSpike && finPos a.vwap &&
    decide (|a.price - vwapV| / vwapV < 2/1000)

/-- The low-liquidity condition: `!marketCap || marketCap < 1e10`. -/
def intradayLowLiquidityCond (marketCap : Option ℚ) : Bool :=
  !truthyNum marketCap || decide (marketCap.getD 0 < 10000000000)

/-- evaluateIntraday, current version (src/unnamed/part_005 lines 1058-1276):
a strictly ordered rule cascade, first match wins. -/
def evaluateIntraday (a : IntradayEvalArgs) : Verdict :=
  let hasVwap := finPos a.vwap
  let vwapV := a.vwap.getD 0
  let aboveVWAP := hasVwap && decide (vwapV < a.price)
  let belowVWAP := hasVwap && decide (a.price < vwapV)
  let breakoutConfirmed := getBreakoutConfirmation a.resistance a.price a.volumeSpike
  let nearSupport := truthyNum a.support &&
    decide (a.price ≤ a.support.getD 0 * (102/100))
  let effectiveGap := effectiveGapIntraday a.gapNowPct a.gapOpenPct
  let volumeOK := a.volumeSpike || (aboveVWAP && decide (50 < a.rsi))
  if intradayChopCond a then
    ⟨"Choppy Market – Avoid", "neutral",
      ["Low volatility chop – intraday edge absent"]⟩
  else if intradayLowLiquidityCond a.marketCap then
    ⟨"Low Liquidity - Avoid", "negative",
      ["Insufficient liquidity for intraday trading"]⟩
  else if decide (40 ≤ a.rsi) && decide (a.rsi ≤ 65) &&
      decide (2/10 ≤ effectiveGap) && decide (effectiveGap < 35/10) &&
      volumeOK && aboveVWAP && !breakoutConfirmed then
    ⟨"Strong Intraday Buy", "positive",
      [if 5/10 < effectiveGap then "Gap up with momentum" else "Positive price action",
       "Price above VWAP shows bullish structure",
       "RSI in optimal intraday zone",
       if a.candleColor = "green" then "Green candle confirms buying pressure"
       else "Building momentum"]⟩
  else if decide (45 ≤ a.rsi) && decide (a.rsi ≤ 65) && aboveVWAP &&
      decide (-(2/10) ≤ effectiveGap) then
    ⟨"Momentum Continuation", "positive",
      ["Momentum continuation pattern",
       "Trading above key VWAP level",
       if a.volumeSpike then "Volume supports the move"
       else "Watch for volume confirmation",
       if a.candleColor = "green" then "Bullish candle pattern"
       else "Consolidating with upside bias"]⟩
  else if decide (65 < a.rsi) && decide (a.rsi ≤ 70) && a.volumeSpike &&
      aboveVWAP then
    ⟨"Stretch Zone - Scalp Only", "positive",
      ["Momentum in stretch zone - volume required",
       "Trading above VWAP with volume confirmation",
       "Suitable for scalp/quick trades only"]⟩
  else if breakoutConfirmed && decide (50 ≤ a.rsi) && decide (a.rsi ≤ 70) then
    ⟨"Breakout Candidate", "positive",
      ["Institutional-grade breakout confirmed",
       "Volume confirms resistance break",
       if a.candleColor = "green" then "Bullish momentum toward resistance"
       else "Consolidating before breakout"]⟩
  else if decide (45 ≤ a.rsi) && decide (a.rsi ≤ 70) && aboveVWAP &&
      decide (-(3/10) ≤ effectiveGap) then
    ⟨"Moderate Momentum - Watch", "positive",
      ["Moderate momentum with VWAP support",
       if a.volumeSpike then "Volume confirms interest"
       else "Awaiting volume confirmation",
       if a.candleColor = "green" then "Bullish bias"
       else "Consolidating with upside potential"]⟩
  else if decide (40 ≤ a.rsi) && decide (a.rsi ≤ 60) &&
      decide (|effectiveGap| ≤ 5/10) && !breakoutConfirmed && !nearSupport then
    ⟨"Consolidation Watch", "positive",
      ["Consolidation phase - watch for breakout",
       if a.volumeSpike then "Volume suggests impending move"
       else "Low volatility - add to watchlist",
       if aboveVWAP then "Above VWAP provides support"
       else "Below VWAP - needs confirmation"]⟩
  else if decide (70 < a.rsi) then
    ⟨"Overbought - Avoid Fresh Entry", "negative",
      ["RSI in distribution zone (>70) - institutions selling",
       "High risk of reversal or profit booking",
       "Unfavorable risk-reward for fresh entries",
       "Avoid fresh entries - scalp only if experienced"]⟩
  else if belowVWAP && a.candleColor = "red" && decide (effectiveGap < -(5/10)) then
    ⟨"Bearish Momentum - Avoid", "negative",
      ["Trading below VWAP with bearish momentum",
       "Gap down indicates weakness",
       "Red candle confirms selling pressure"]⟩
  else
    ⟨"No Clear Intraday Signal", "neutral",
      ["No clear intraday signal detected",
       "Insufficient momentum or volume confirmation"]⟩

/-! ### Legacy intraday evaluator (src/services/positionEvaluator.js)

The historical variant imported by the routes.  It differs from the current
one in two ways that matter here: `effectiveGap = gapNowPct || gapOpenPct`
(falsy fallback, so a present-but-zero gapNowPct falls through to
gapOpenPct, and the result can be undefined), and VWAP is used without the
finPos guard (JS comparisons against undefined are false). -/

/-- `gapNowPct || gapOpenPct`: falsy fallback; may be undefined. -/
def effectiveGapLegacy (gapNowPct gapOpenPct : Option ℚ) : Option ℚ :=
  if truthyNum gapNowPct then gapNowPct else gapOpenPct

/-- `o < b` where `o` may be undefined (NaN comparisons are false in JS). -/
def oLt (o : Option ℚ) (b : ℚ) : Bool :=
  match o with
  | some v => decide (v < b)
  | none => false

/-- `b ≤ o` where `o` may be undefined. -/
def oGe (o : Option ℚ) (b : ℚ) : Bool :=
  match o with
  | some v => decide (b ≤ v)
  | none => false

/-- `b < o` where `o` may be undefined. -/
def oGt (o : Option ℚ) (b : ℚ) : Bool :=
  match o with
  | some v => decide (b < v)
  | none => false

/-- `Math.abs(o) < b` where `o` may be undefined. -/
def oAbsLt (o : Option ℚ) (b : ℚ) : Bool :=
  match o with
  | some v => decide (|v| < b)
  | none => false

/-- `Math.abs(o) ≤ b` where `o` may be undefined. -/
def oAbsLe (o : Option ℚ) (b : ℚ) : Bool :=
  match o with
  | some v => decide (|v| ≤ b)
  | none => false

/-- `Math.abs(price - vwap) / vwap < b` in JS: false when vwap is undefined
or zero (NaN / Infinity). -/
def chopVwapNearLegacy (price : ℚ) (vwap : Option ℚ) (b : ℚ) : Bool :=
  match vwap with
  | some v => v != 0 && decide (|price - v| / v < b)
  | none => false

/-- evaluateIntraday from src/services/positionEvaluator.js (lines 733-949),
the superseded falsy-fallback variant. -/
def evaluateIntradayLegacy (a : IntradayEvalArgs) : Verdict :=
  let aboveVWAP := match a.vwap with
    | some v => decide (v < a.price)
    | none => false
  let belowVWAP := match a.vwap with
    | some v => decide (a.price < v)
    | none => false
  let breakoutConfirmed := getBreakoutConfirmation a.resistance a.price a.volumeSpike
  let nearSupport := truthyNum a.support &&
    decide (a.price ≤ a.support.getD 0 * (102/100))
  let effectiveGap := effectiveGapLegacy a.gapNowPct a.gapOpenPct
  let volumeOK := a.volumeSpike || (aboveVWAP && decide (50 < a.rsi))
  if oAbsLt effectiveGap (2/10) && !a.volumeSpike &&
      chopVwapNearLegacy a.price a.vwap (2/1000) then
    ⟨"Choppy Market – Avoid", "neutral",
      ["Low volatility chop – intraday edge absent"]⟩
  else if intradayLowLiquidityCond a.marketCap then
    ⟨"Low Liquidity - Avoid", "negative",
      ["Insufficient liquidity for intraday trading"]⟩
  else if decide (40 ≤ a.rsi) && decide (a.rsi ≤ 65) &&
      oGe effectiveGap (2/10) && oLt effectiveGap (35/10) &&
      volumeOK && aboveVWAP && !breakoutConfirmed then
    ⟨"Strong Intraday Buy", "positive",
      [if oGt effectiveGap (5/10) then "Gap up with momentum"
       else "Positive price action",
       "Price above VWAP shows bullish structure",
       "RSI in optimal intraday zone",
       if a.candleColor = "green" then "Green candle confirms buying pressure"
       else "Building momentum"]⟩
  else if decide (45 ≤ a.rsi) && decide (a.rsi ≤ 65) && aboveVWAP &&
      oGe effectiveGap (-(2/10)) then
    ⟨"Momentum Continuation", "positive",
      ["Momentum continuation pattern",
       "Trading above key VWAP level",
       if a.volumeSpike then "Volume supports the move"
       else "Watch for volume confirmation",
       if a.candleColor = "green" then "Bullish candle pattern"
       else "Consolidating with upside bias"]⟩
  else if decide (65 < a.rsi) && decide (a.rsi ≤ 70) && a.volumeSpike &&
      aboveVWAP then
    ⟨"Stretch Zone - Scalp Only", "positive",
      ["Momentum in stretch zone - volume required",
       "Trading above VWAP with volume confirmation",
       "Suitable for scalp/quick trades only"]⟩
  else if breakoutConfirmed && decide (50 ≤ a.rsi) && decide (a.rsi ≤ 70) then
    ⟨"Breakout Candidate", "positive",
      ["Institutional-grade breakout confirmed",
       "Volume confirms resistance break",
       if a.candleColor = "green" then "Bullish momentum toward resistance"
       else "Consolidating before breakout"]⟩
  else if decide (45 ≤ a.rsi) && decide (a.rsi ≤ 70) && aboveVWAP &&
      oGe effectiveGap (-(3/10)) then
    ⟨"Moderate Momentum - Watch", "positive",
      ["Moderate momentum with VWAP support",
       if a.volumeSpike then "Volume confirms interest"
       else "Awaiting volume confirmation",
       if a.candleColor = "green" then "Bullish bias"
       else "Consolidating with upside potential"]⟩
  else if decide (40 ≤ a.rsi) && decide (a.rsi ≤ 60) &&
      oAbsLe effectiveGap (5/10) && !breakoutConfirmed && !nearSupport then
    ⟨"Consolidation Watch", "positive",
      ["Consolidation phase - watch for breakout",
       if a.volumeSpike then "Volume suggests impending move"
       else "Low volatility - add to watchlist",
       if aboveVWAP then "Above VWAP provides support"
       else "Below VWAP - needs confirmation"]⟩
  else if decide (70 < a.rsi) then
    ⟨"Overbought - Avoid Fresh Entry", "negative",
      ["RSI in distribution zone (>70) - institutions selling",
       "High risk of reversal or profit booking",
       "Unfavorable risk-reward for fresh entries",
       "Avoid fresh entries - scalp only if experienced"]⟩
  else if belowVWAP && a.candleColor = "red" && oLt effectiveGap (-(5/10)) then
    ⟨"Bearish Momentum - Avoid", "negative",
      ["Trading below VWAP with bearish momentum",
       "Gap down indicates weakness",
       "Red candle confirms selling pressure"]⟩
  else
    ⟨"No Clear Intraday Signal", "neutral",
      ["No clear intraday signal detected",
       "Insufficient momentum or volume confirmation"]⟩

/-! ### Intraday entry price calculator (src/unnamed/part_005, lines 719-1045) -/

structure EntryArgs where
  price : ℚ
  vwap : Option ℚ
  support : Option ℚ
  resistance : Option ℚ
  rsi : Option ℚ
  candleColor : String
  gapOpenPct : Option ℚ
  volumeSpike : Bool
  volatilityPct : Option ℚ
deriving Repr, DecidableEq

/-- The returned plan.  The riskReward fields are kept as the rational values
behind the fixed 2-decimal strings produced by formatRatio/toFixed. -/
structure EntryPlan where
  entryPrice : Option ℚ
  stopLoss : Option ℚ
  target1 : Option ℚ
  target2 : Option ℚ
  entryReason : String
  entryType : String
  riskReward : ℚ
  riskRewardAfterCosts : ℚ
  riskRewardGross : ℚ
  estimatedRoundTripCostPerShare : Option ℚ
  estimatedRoundTripCostPct : Option ℚ
deriving Repr, DecidableEq

/-- formatRatio: finite values are rendered with toFixed(2); null becomes
0.00.  Modelled as the 2-decimal rounding of the rational. -/
def formatRatio2 (o : Option ℚ) : ℚ :=
  match o with
  | some v => roundToPaise v
  | none => 0

/-- `Number.isFinite(x) && x > 0 ? x : null`. -/
def validPosOpt (o : Option ℚ) : Option ℚ :=
  match o with
  | some v => if 0 < v then some v else none
  | none => none

def intradayAtrPct (volatilityPct : Option ℚ) : ℚ :=
  clampQ (volatilityPct.getD (11/10)) (45/100) (38/10)

def intradayExtensionLimit (atrPct : ℚ) : ℚ :=
  clampQ (atrPct * (18/10) / 100) (3/100) (55/1000)

/-- vwapExtension = hasVwap ? (price - vwap) / vwap : 0. -/
def vwapExtensionOf (price : ℚ) (vwap : Option ℚ) : ℚ :=
  if finPos vwap then (price - vwap.getD 0) / vwap.getD 0 else 0

/-- The priority-ordered entry strategy selection of
calculateIntradayEntryPrice.  Returns (entry, entryType, entryReason); the
numeric interpolations of the reason strings are elided. -/
def chooseIntradayStrategy (a : EntryArgs) (atrPct normalizedRSI : ℚ) :
    ℚ × String × String :=
  let currentPrice := a.price
  let hasVwap := finPos a.vwap
  let vwapV := a.vwap.getD 0
  let validSupport := validPosOpt a.support
  let validResistance := validPosOpt a.resistance
  let vwapDistancePct : Option ℚ :=
    if hasVwap then some ((currentPrice - vwapV) / vwapV * 100) else none
  let supportDistancePct : Option ℚ :=
    match validSupport with
    | some s =>
        if s < currentPrice then some ((currentPrice - s) / currentPrice * 100)
        else none
    | none => none
  if hasVwap ∧ vwapV < currentPrice ∧ 42 ≤ normalizedRSI ∧ normalizedRSI ≤ 80 then
    let nearVWAPPct := clampQ (atrPct * (11/10)) (45/100) (21/10)
    if vwapDistancePct.getD 0 ≤ nearVWAPPct ∧ vwapDistancePct.isSome then
      let entryBufferPct := clampQ (atrPct * (12/100)) (5/100) (18/100)
      (min currentPrice (vwapV * (1 + entryBufferPct / 100)),
       "vwap_pullback", "VWAP pullback entry")
    else
      (currentPrice, "trend_continuation", "Trend continuation")
  else if (match validSupport, supportDistancePct with
      | some s, some d =>
          decide (s < currentPrice) &&
          decide (d ≤ clampQ (atrPct * (11/10)) (8/10) (25/10)) &&
          decide (35 ≤ normalizedRSI) && decide (normalizedRSI ≤ 62)
      | _, _ => false) then
    let s := validSupport.getD 0
    let entryBufferPct := clampQ (atrPct * (9/100)) (5/100) (16/100)
    (min currentPrice (s * (1 + entryBufferPct / 100)),
     "support_level", "Support level entry")
  else if (match validResistance with
      | some r =>
          decide (r * (998/1000) ≤ currentPrice) &&
          decide (48 ≤ normalizedRSI) && decide (normalizedRSI ≤ 72) &&
          (a.volumeSpike || a.candleColor = "green")
      | none => false) then
    let r := validResistance.getD 0
    let breakoutBufferPct := clampQ (atrPct * (8/100)) (4/100) (14/100)
    (min currentPrice (r * (1 + breakoutBufferPct / 100)),
     "resistance_breakout", "Resistance breakout - institutional momentum confirmation")
  else if (8/10) < a.gapOpenPct.getD 0 ∧ a.gapOpenPct.getD 0 < (45/10) ∧
      a.candleColor = "green" then
    (currentPrice, "orb_breakout", "ORB continuation")
  else if 45 ≤ normalizedRSI ∧ normalizedRSI ≤ 65 ∧
      |a.gapOpenPct.getD 0| ≤ (6/10) then
    (currentPrice, "consolidation_level", "Consolidation breakout")
  else if 50 ≤ normalizedRSI ∧ normalizedRSI ≤ 70 then
    (currentPrice, "volume_confirmed_level", "Volume confirmed momentum")
  else
    (currentPrice, "market_level", "Market level entry - immediate execution")

def pullbackPreferredEntryTypes : List String :=
  ["vwap_pullback", "trend_continuation", "support_level",
   "consolidation_level", "volume_confirmed_level", "market_level"]

/-- The limit-pullback adjustment applied to pullback-preferred entry types.
At this point no strategy reason contains the Limit-preferred marker, so the
includes-guarded append always fires. -/
def intradayPullbackEntry (a : EntryArgs) (atrPct entry0 : ℚ)
    (ty reason : String) : ℚ × String :=
  let currentPrice := a.price
  if ty ∈ pullbackPreferredEntryTypes then
    let minPullbackPct := clampQ (atrPct * (16/100)) (8/100) (22/100)
    let maxPullbackPct := clampQ (atrPct * (55/100)) (2/10) (75/100)
    let anchorBufferPct := clampQ (atrPct * (8/100)) (4/100) (16/100)
    let vwapAnchor : Option ℚ :=
      if finPos a.vwap ∧ a.vwap.getD 0 < currentPrice then
        some (a.vwap.getD 0 * (1 + anchorBufferPct / 100))
      else none
    let p0 := currentPrice * (1 - minPullbackPct / 100)
    let p1 := match vwapAnchor with
      | some va => max p0 va
      | none => p0
    let p2 := max p1 (currentPrice * (1 - maxPullbackPct / 100))
    let minTickBelow := max (currentPrice * (2/10000)) (5/100)
    let p3 := min p2 (currentPrice - minTickBelow)
    if 0 < p3 then (p3, reason ++ " (Limit preferred, wait for pullback)")
    else (entry0, reason)
  else (entry0, reason)

def intradayStopAtrMultiple (ty : String) : ℚ :=
  if ty = "vwap_pullback" then 85/100
  else if ty = "trend_continuation" then 105/100
  else if ty = "support_level" then 1
  else if ty = "resistance_breakout" then 115/100
  else if ty = "orb_breakout" then 12/10
  else if ty = "consolidation_level" then 95/100
  else if ty = "volume_confirmed_level" then 1
  else if ty = "market_level" then 1
  else 1

/-- Stop-loss and risk-per-share pipeline of calculateIntradayEntryPrice
(structure stops, allowed-stop clamps, risk clamps).  Returns
(stopLoss, riskPerShare) with stopLoss = entry - riskPerShare. -/
def intradayStopAndRisk (a : EntryArgs) (atrPct atrMove entry : ℚ)
    (ty : String) : ℚ × ℚ :=
  let minStopDistancePct := clampQ (atrPct * (65/100)) (45/100) (12/10)
  let maxStopDistancePct := clampQ (atrPct * (17/10)) 1 (28/10)
  let atrStopPct := clampQ (atrPct * intradayStopAtrMultiple ty)
    minStopDistancePct maxStopDistancePct
  let atrStop := entry * (1 - atrStopPct / 100)
  let vwapV := a.vwap.getD 0
  let sVwap : Option ℚ :=
    if finPos a.vwap ∧ vwapV < entry ∧
        (entry - vwapV) / entry * 100 ≤ max (atrPct * (22/10)) (16/10) then
      some (vwapV - atrMove * (25/100))
    else none
  let sSup : Option ℚ :=
    match validPosOpt a.support with
    | some s =>
        if s < entry ∧ (entry - s) / entry * 100 ≤ max (atrPct * (26/10)) 2 then
          some (s - atrMove * (2/10))
        else none
    | none => none
  let stop0 := match sVwap, sSup with
    | some x, some y => max x y
    | some x, none => x
    | none, some y => y
    | none, none => atrStop
  let stop1 := min stop0 (entry * (1 - minStopDistancePct / 100))
  let stop2 := max stop1 (entry * (1 - maxStopDistancePct / 100))
  let minRiskPct := clampQ (atrPct * (6/10)) (35/100) (11/10)
  let maxRiskPct := clampQ (atrPct * (19/10)) (12/10) 3
  let risk := clampQ (entry - stop2) (entry * (minRiskPct / 100))
    (entry * (maxRiskPct / 100))
  (entry - risk, risk)

def intradayRR1Base (ty : String) : ℚ :=
  if ty = "vwap_pullback" then 16/10
  else if ty = "trend_continuation" then 27/20
  else if ty = "support_level" then 18/10
  else if ty = "resistance_breakout" then 15/10
  else if ty = "orb_breakout" then 14/10
  else if ty = "consolidation_level" then 29/20
  else if ty = "volume_confirmed_level" then 14/10
  else if ty = "market_level" then 27/20
  else 27/20

def intradayRunnerBaseMult (ty : String) : ℚ :=
  if ty = "vwap_pullback" then 5/10
  else if ty = "trend_continuation" then 55/100
  else if ty = "support_level" then 65/100
  else if ty = "consolidation_level" then 45/100
  else if ty = "volume_confirmed_level" then 5/10
  else if ty = "market_level" then 45/100
  else 5/10

/-- The final `if (target2 <= target1)` fixup shared by both target
pipelines: push target2 a minimum step above target1. -/
def applyMinT2Gap (t1 t2d step : ℚ) : ℚ :=
  if t2d ≤ t1 then t1 + step else t2d

/-- Target pipeline of calculateIntradayEntryPrice: RR multiples, resistance
cap on target1, target2 floor/caps, tight runner rule, final t2 > t1 fixup.
Returns (target1, target2) before the final paise rounding. -/
def intradayTargets (a : EntryArgs) (atrPct atrMove entry risk normalizedRSI : ℚ)
    (ty : String) : ℚ × ℚ :=
  let validResistance := validPosOpt a.resistance
  let rr1b0 := intradayRR1Base ty
  let rr1b1 := if 63 ≤ normalizedRSI then rr1b0 - 15/100
    else if normalizedRSI ≤ 48 then rr1b0 + 12/100 else rr1b0
  let rr1b2 := if 2 ≤ atrPct then rr1b1 - 8/100
    else if atrPct ≤ 8/10 then rr1b1 + 8/100 else rr1b1
  let rr1b3 := if a.volumeSpike then rr1b2 + 5/100 else rr1b2
  let rr1 := clampQ rr1b3 (12/10) (21/10)
  let rr2 := clampQ (rr1 + max (rr1 * (75/100)) (8/10)) 2 (36/10)
  let t1a := entry + risk * rr1
  let capInfo : ℚ × Bool := match validResistance with
    | some r =>
        if entry < r then
          let resistanceBufferPct := clampQ (atrPct * (15/100)) (8/100) (35/100)
          let resistanceCap := r * (1 - resistanceBufferPct / 100)
          if entry + risk * (9/10) < resistanceCap then
            (min t1a resistanceCap, decide (min t1a resistanceCap < t1a))
          else (t1a, false)
        else (t1a, false)
    | none => (t1a, false)
  let t1 := capInfo.1
  let target1CappedByResistance := capInfo.2
  let t2a := entry + risk * rr2
  let minTarget2Step := max (risk * (6/10)) (entry * (4/1000))
  let t2b := max t2a (t1 + minTarget2Step)
  let t2c := match validResistance with
    | some r => if entry < r ∧ t2b ≤ r then r + atrMove * (8/10) else t2b
    | none => t2b
  let t2d :=
    if target1CappedByResistance ∧ validResistance.isSome ∧
        ty ≠ "resistance_breakout" ∧ ty ≠ "orb_breakout" then
      let m0 := intradayRunnerBaseMult ty
      let m1 := m0 + clampQ ((atrPct - 12/10) * (8/100)) (-(8/100)) (2/10)
      let m2 := if a.volumeSpike then m1 + 5/100 else m1
      let m3 := if 62 ≤ normalizedRSI then m2 - 5/100 else m2
      let m := clampQ m3 (35/100) (9/10)
      let r := validResistance.getD 0
      let atrBasedRunnerCap := r + atrMove * m
      let pctBasedRunnerCap := r * (1 + clampQ (atrPct * (25/100)) (25/100) (9/10) / 100)
      let tightRunnerCap := min atrBasedRunnerCap pctBasedRunnerCap
      if t1 < tightRunnerCap then
        let t2x := min t2c tightRunnerCap
        let step0 := max (entry * (1/1000)) (risk * (15/100))
        let step := if tightRunnerCap < t1 + step0 then
            max (entry * (5/10000)) (risk * (8/100))
          else step0
        min (max t2x (t1 + step)) tightRunnerCap
      else t2c
    else t2c
  let t2 := applyMinT2Gap t1 t2d (max (entry * (5/10000)) (risk * (8/100)))
  (t1, t2)

/-- The rounded levels of a computed (non-short-circuited) entry plan. -/
structure PlanParts where
  entry : ℚ
  stop : ℚ
  t1 : ℚ
  t2 : ℚ
  ty : String
  reason : String
deriving Repr, DecidableEq

/-- The strategy / pullback / stop / target pipeline of
calculateIntradayEntryPrice, producing the rounded price levels. -/
def intradayPlanParts (a : EntryArgs) : PlanParts :=
  let currentPrice := a.price
  let atrPct := intradayAtrPct a.volatilityPct
  let atrMove := currentPrice * (atrPct / 100)
  let normalizedRSI := a.rsi.getD 50
  let chosen := chooseIntradayStrategy a atrPct normalizedRSI
  let adjusted := intradayPullbackEntry a atrPct chosen.1 chosen.2.1 chosen.2.2
  let entryPrice := roundToPaise (min adjusted.1 currentPrice)
  let sr := intradayStopAndRisk a atrPct atrMove entryPrice chosen.2.1
  let ts := intradayTargets a atrPct atrMove entryPrice sr.2 normalizedRSI
    chosen.2.1
  ⟨entryPrice, roundToPaise sr.1, roundToPaise ts.1, roundToPaise ts.2,
    chosen.2.1, adjusted.2⟩

/-- `rrStats?.riskRewardGross ?? calculateRiskReward(entry, stop, t1)`. -/
def planRRGross (entryPrice stopLoss target1 costBps : ℚ) : Option ℚ :=
  match applyRoundTripCostModel entryPrice stopLoss target1 costBps with
  | some st => some st.riskRewardGross
  | none => calculateRiskReward entryPrice stopLoss target1

/-- `rrStats?.riskRewardAfterCosts ?? rrGross`. -/
def planRRNet (entryPrice stopLoss target1 costBps : ℚ) : Option ℚ :=
  match applyRoundTripCostModel entryPrice stopLoss target1 costBps with
  | some st =>
      match st.riskRewardAfterCosts with
      | some v => some v
      | none => planRRGross entryPrice stopLoss target1 costBps
  | none => planRRGross entryPrice stopLoss target1 costBps

def invalidEntryPlan : EntryPlan where
  entryPrice := none
  stopLoss := none
  target1 := none
  target2 := none
  entryReason := "Invalid price data"
  entryType := "invalid"
  riskReward := 0
  riskRewardAfterCosts := 0
  riskRewardGross := 0
  estimatedRoundTripCostPerShare := none
  estimatedRoundTripCostPct := none

/-- calculateIntradayEntryPrice, current version (src/unnamed/part_005).
The riskReward string literals 0.60/0.70 of the scalp branch are the
rationals 3/5 and 7/10. -/
def calculateIntradayEntryPrice (a : EntryArgs) : EntryPlan :=
  let currentPrice := a.price
  if currentPrice ≤ 0 then invalidEntryPlan
  else
  let atrPct := intradayAtrPct a.volatilityPct
  let atrMove := currentPrice * (atrPct / 100)
  let normalizedRSI := a.rsi.getD 50
  let vwapExtension := vwapExtensionOf currentPrice a.vwap
  if intradayExtensionLimit atrPct < vwapExtension ∧ ¬a.volumeSpike ∧
      60 < normalizedRSI then
    { entryPrice := some (roundToPaise currentPrice)
      stopLoss := some (roundToPaise (currentPrice * (988/1000)))
      target1 := some (roundToPaise (currentPrice * (101/100)))
      target2 := some (roundToPaise (currentPrice * (1018/1000)))
      entryReason := "Stretch Zone – Scalp Only (Overextended VWAP)"
      entryType := "scalp_only"
      riskReward := 6/10
      riskRewardAfterCosts := 6/10
      riskRewardGross := 7/10
      estimatedRoundTripCostPerShare :=
        some (roundToPaise (currentPrice * (DEFAULT_INTRADAY_ROUND_TRIP_COST_BPS / 10000)))
      estimatedRoundTripCostPct := some (DEFAULT_INTRADAY_ROUND_TRIP_COST_BPS / 100) }
  else
  let p := intradayPlanParts a
  let rrStats := applyRoundTripCostModel p.entry p.stop p.t1
    DEFAULT_INTRADAY_ROUND_TRIP_COST_BPS
  let rrGross := planRRGross p.entry p.stop p.t1
    DEFAULT_INTRADAY_ROUND_TRIP_COST_BPS
  let rrNet := planRRNet p.entry p.stop p.t1
    DEFAULT_INTRADAY_ROUND_TRIP_COST_BPS
  let costPerShare : Option ℚ := match rrStats with
    | some st => some (roundToPaise st.estimatedRoundTripCostPerShare)
    | none => none
  let costPct : Option ℚ := match rrStats with
    | some st => some st.estimatedRoundTripCostPct
    | none => none
  if rrNet.getD 0 < 1 then
    { entryPrice := some p.entry
      stopLoss := some p.stop
      target1 := some p.t1
      target2 := some p.t2
      entryReason := p.reason ++ " (RR weak – wait for better location)"
      entryType := "rr_weak"
      riskReward := formatRatio2 rrNet
      riskRewardAfterCosts := formatRatio2 rrNet
      riskRewardGross := formatRatio2 rrGross
      estimatedRoundTripCostPerShare := costPerShare
      estimatedRoundTripCostPct := costPct }
  else
    { entryPrice := some p.entry
      stopLoss := some p.stop
      target1 := some p.t1
      target2 := some p.t2
      entryReason := p.reason
      entryType := p.ty
      riskReward := formatRatio2 rrNet
      riskRewardAfterCosts := formatRatio2 rrNet
      riskRewardGross := formatRatio2 rrGross
      estimatedRoundTripCostPerShare := costPerShare
      estimatedRoundTripCostPct := costPct }

/-! ### Swing entry price calculator (src/unnamed/part_005, lines 419-711) -/

structure SwingArgs where
  price : ℚ
  marketCap : Option ℚ
  swingVWAP : Option ℚ
  support : Option ℚ
  resistance : Option ℚ
  rsi : Option ℚ
  candleColor : String
  gapOpenPct : Option ℚ
  gapNowPct : Option ℚ
  volumeSpike : Bool
  volatilityPct : Option ℚ
deriving Repr, DecidableEq

def swingAtrPct (volatilityPct : Option ℚ) : ℚ :=
  clampQ (volatilityPct.getD (24/10)) 1 (75/10)

/-- The priority-ordered swing entry strategy selection.  Returns
(entry, entryType, entryReason); numeric interpolations elided. -/
def chooseSwingStrategy (a : SwingArgs) (atrPct normalizedRSI effectiveGap : ℚ) :
    ℚ × String × String :=
  let currentPrice := a.price
  let hasSwingVWAP := finPos a.swingVWAP
  let vwapV := a.swingVWAP.getD 0
  let validSupport := validPosOpt a.support
  let validResistance := validPosOpt a.resistance
  let swingVWAPDistancePct : Option ℚ :=
    if hasSwingVWAP then some ((currentPrice - vwapV) / vwapV * 100) else none
  let supportDistancePct : Option ℚ :=
    match validSupport with
    | some s =>
        if s < currentPrice then some ((currentPrice - s) / currentPrice * 100)
        else none
    | none => none
  if hasSwingVWAP ∧ vwapV < currentPrice ∧ 45 ≤ normalizedRSI ∧
      normalizedRSI ≤ 72 then
    let nearSwingVWAPPct := clampQ (atrPct * (9/10)) (12/10) (38/10)
    if swingVWAPDistancePct.getD 0 ≤ nearSwingVWAPPct ∧
        swingVWAPDistancePct.isSome then
      let entryBufferPct := clampQ (atrPct * (18/100)) (12/100) (45/100)
      (min currentPrice (vwapV * (1 + entryBufferPct / 100)),
       "swing_vwap", "Swing VWAP pullback")
    else
      (currentPrice, "swing_momentum", "Swing continuation")
  else if (match validSupport, supportDistancePct with
      | some s, some d =>
          decide (s < currentPrice) &&
          decide (d ≤ clampQ (atrPct * 1) (12/10) 4) &&
          decide (35 ≤ normalizedRSI) && decide (normalizedRSI ≤ 62)
      | _, _ => false) then
    let s := validSupport.getD 0
    let entryBufferPct := clampQ (atrPct * (1/10)) (8/100) (3/10)
    (min currentPrice (s * (1 + entryBufferPct / 100)),
     "swing_support", "Support accumulation")
  else if (match validResistance with
      | some r =>
          decide (r * (997/1000) ≤ currentPrice) &&
          decide (50 ≤ normalizedRSI) && decide (normalizedRSI ≤ 72) &&
          (a.volumeSpike || a.candleColor = "green")
      | none => false) then
    let r := validResistance.getD 0
    let breakoutBufferPct := clampQ (atrPct * (8/100)) (5/100) (25/100)
    (min currentPrice (r * (1 + breakoutBufferPct / 100)),
     "swing_breakout", "Swing breakout continuation - institutional momentum participation")
  else if 44 ≤ normalizedRSI ∧ normalizedRSI ≤ 64 ∧ |effectiveGap| ≤ (15/10) then
    (currentPrice, "swing_consolidation", "Swing consolidation breakout - staggered build-up zone")
  else if 48 ≤ normalizedRSI ∧ normalizedRSI ≤ 70 ∧ a.candleColor = "green" then
    (currentPrice, "swing_momentum", "Swing momentum alignment - trend follow setup")
  else
    (currentPrice, "swing_market", "Swing market entry - immediate position")

def swingStopAtrMultiple (ty : String) : ℚ :=
  if ty = "swing_vwap" then 11/10
  else if ty = "swing_support" then 1
  else if ty = "swing_breakout" then 27/20
  else if ty = "swing_consolidation" then 12/10
  else if ty = "swing_momentum" then 5/4
  else if ty = "swing_market" then 23/20
  else 23/20

/-- Swing stop-loss/risk pipeline.  Returns (stopLoss, riskPerShare). -/
def swingStopAndRisk (a : SwingArgs) (atrPct atrMove entry : ℚ)
    (ty : String) : ℚ × ℚ :=
  let minStopDistancePct := clampQ (atrPct * (85/100)) (12/10) 3
  let maxStopDistancePct := clampQ (atrPct * (19/10)) (28/10) (75/10)
  let atrStopPct := clampQ (atrPct * swingStopAtrMultiple ty)
    minStopDistancePct maxStopDistancePct
  let atrStop := entry * (1 - atrStopPct / 100)
  let vwapV := a.swingVWAP.getD 0
  let sVwap : Option ℚ :=
    if finPos a.swingVWAP ∧ vwapV < entry ∧
        (entry - vwapV) / entry * 100 ≤ max (atrPct * (16/10)) (35/10) then
      some (vwapV - atrMove * (3/10))
    else none
  let sSup : Option ℚ :=
    match validPosOpt a.support with
    | some s =>
        if s < entry ∧ (entry - s) / entry * 100 ≤ max (atrPct * (18/10)) 4 then
          some (s - atrMove * (35/100))
        else none
    | none => none
  let stop0 := match sVwap, sSup with
    | some x, some y => max x y
    | some x, none => x
    | none, some y => y
    | none, none => atrStop
  let stop1 := min stop0 (entry * (1 - minStopDistancePct / 100))
  let stop2 := max stop1 (entry * (1 - maxStopDistancePct / 100))
  let minRiskPct := clampQ (atrPct * (55/100)) 1 (28/10)
  let maxRiskPct := clampQ (atrPct * 2) (25/10) (78/10)
  let risk := clampQ (entry - stop2) (entry * (minRiskPct / 100))
    (entry * (maxRiskPct / 100))
  (entry - risk, risk)

def swingRR1Base (ty : String) : ℚ :=
  if ty = "swing_vwap" then 2
  else if ty = "swing_support" then 12/5
  else if ty = "swing_breakout" then 21/10
  else if ty = "swing_consolidation" then 19/10
  else if ty = "swing_momentum" then 9/5
  else if ty = "swing_market" then 9/5
  else 9/5

def swingBaseTarget2CapPct (validMarketCap : Option ℚ) : ℚ :=
  match validMarketCap with
  | some m =>
      if 1500000000000 ≤ m then 75/10
      else if 500000000000 ≤ m then 85/10
      else if 200000000000 ≤ m then 95/10
      else if 80000000000 ≤ m then 11
      else 125/10
  | none => 105/10

def swingRunnerBaseMult (validMarketCap : Option ℚ) : ℚ :=
  match validMarketCap with
  | some m =>
      if 1500000000000 ≤ m then 8/10
      else if 500000000000 ≤ m then 1
      else if 200000000000 ≤ m then 12/10
      else if 80000000000 ≤ m then 14/10
      else 16/10
  | none => 12/10

/-- Swing target pipeline: RR multiples, resistance caps, market-cap /
volatility runner caps, final t2 > t1 fixup.  Returns (target1, target2)
before the final paise rounding. -/
def swingTargets (a : SwingArgs) (atrPct atrMove entry risk normalizedRSI
    effectiveGap : ℚ) (ty : String) : ℚ × ℚ :=
  let validResistance := validPosOpt a.resistance
  let validMarketCap := validPosOpt a.marketCap
  let rr1b0 := swingRR1Base ty
  let rr1b1 := if 66 ≤ normalizedRSI then rr1b0 - 2/10
    else if normalizedRSI ≤ 50 then rr1b0 + 2/10 else rr1b0
  let rr1b2 := if (15/10) < |effectiveGap| then rr1b1 - 1/10 else rr1b1
  let rr1b3 := if effectiveGap ≤ -(25/10) ∧ ty = "swing_market" then
      rr1b2 - 25/100
    else rr1b2
  let rr1b4 := if a.volumeSpike then rr1b3 + 1/10 else rr1b3
  let rr1 := clampQ rr1b4 (15/10) (32/10)
  let rr2 := clampQ (rr1 + max (rr1 * (9/10)) (12/10)) (28/10) (58/10)
  let t1a := entry + risk * rr1
  let capInfo : ℚ × Bool := match validResistance with
    | some r =>
        if entry < r then
          if ty ≠ "swing_breakout" then
            let resistanceBufferPct := clampQ (atrPct * (12/100)) (15/100) (55/100)
            let resistanceCap := r * (1 - resistanceBufferPct / 100)
            (min t1a resistanceCap, true)
          else
            let breakoutExtensionCap := r + atrMove * (9/10)
            (min t1a breakoutExtensionCap, true)
        else (t1a, false)
    | none => (t1a, false)
  let t1 := if capInfo.2 then capInfo.1 else max capInfo.1 (entry + risk * (105/100))
  let target1CappedByResistance := capInfo.2
  let t2a := entry + risk * rr2
  let minTarget2Step := max (risk * (55/100)) (entry * (6/1000))
  let t2b := max t2a (t1 + minTarget2Step)
  let t2c := match validResistance with
    | some r => if entry < r ∧ t2b ≤ r then r + atrMove * (12/10) else t2b
    | none => t2b
  let capPct0 := swingBaseTarget2CapPct validMarketCap
  let capPct1 := capPct0 + clampQ ((atrPct - 3) * (7/10)) (-1) 2
  let capPct2 := if ty = "swing_breakout" then capPct1 + 1
    else if ty = "swing_support" then capPct1 + 6/10
    else if ty = "swing_market" then capPct1 - 6/10
    else capPct1
  let capPct3 := if 64 ≤ normalizedRSI then capPct2 - 7/10
    else if normalizedRSI ≤ 48 then capPct2 + 4/10 else capPct2
  let capPct4 := if a.volumeSpike then capPct3 + 3/10 else capPct3
  let capPct5 := if effectiveGap ≤ -(15/10) then capPct4 - 4/10 else capPct4
  let target2CapPct := clampQ capPct5 (65/10) 15
  let target2CapPrice := entry * (1 + target2CapPct / 100)
  let t2e := if t1 < target2CapPrice then min t2c target2CapPrice else t2c
  let t2f :=
    if target1CappedByResistance ∧ validResistance.isSome ∧
        ty ≠ "swing_breakout" then
      let m0 := swingRunnerBaseMult validMarketCap
      let m1 := m0 + clampQ ((atrPct - 3) * (8/100)) (-(15/100)) (25/100)
      let m2 := if a.volumeSpike then m1 + 1/10 else m1
      let m3 := if 62 ≤ normalizedRSI then m2 - 1/10 else m2
      let m := clampQ m3 (75/100) (18/10)
      let r := validResistance.getD 0
      let atrBasedRunnerCap := r + atrMove * m
      let pctBasedRunnerCap := r * (1 + clampQ (atrPct * (4/10)) (6/10) (22/10) / 100)
      let tightRunnerCap := min atrBasedRunnerCap pctBasedRunnerCap
      if t1 < tightRunnerCap then
        let t2x := min t2e tightRunnerCap
        let step0 := max (entry * (25/10000)) (risk * (2/10))
        let step := if tightRunnerCap < t1 + step0 then
            max (entry * (12/10000)) (risk * (1/10))
          else step0
        min (max t2x (t1 + step)) tightRunnerCap
      else t2e
    else t2e
  let t2 := applyMinT2Gap t1 t2f (max (entry * (25/10000)) (risk * (2/10)))
  (t1, t2)

/-- The strategy / stop / target pipeline of calculateSwingEntryPrice,
producing the rounded price levels. -/
def swingPlanParts (a : SwingArgs) : PlanParts :=
  let currentPrice := a.price
  let atrPct := swingAtrPct a.volatilityPct
  let atrMove := currentPrice * (atrPct / 100)
  let normalizedRSI := a.rsi.getD 50
  let effectiveGap := a.gapNowPct.getD (a.gapOpenPct.getD 0)
  let chosen := chooseSwingStrategy a atrPct normalizedRSI effectiveGap
  let entryPrice := roundToPaise (min chosen.1 currentPrice)
  let sr := swingStopAndRisk a atrPct atrMove entryPrice chosen.2.1
  let ts := swingTargets a atrPct atrMove entryPrice sr.2 normalizedRSI
    effectiveGap chosen.2.1
  let reason := if chosen.2.1 ≠ "swing_breakout" ∧ entryPrice = currentPrice then
      chosen.2.2 ++ " (Limit preferred, wait for pullback)"
    else chosen.2.2
  ⟨entryPrice, roundToPaise sr.1, roundToPaise ts.1, roundToPaise ts.2,
    chosen.2.1, reason⟩

/-- calculateSwingEntryPrice, current version (src/unnamed/part_005).  Unlike
the intraday calculator there is no weak-RR rejection branch. -/
def calculateSwingEntryPrice (a : SwingArgs) : EntryPlan :=
  let currentPrice := a.price
  if currentPrice ≤ 0 then invalidEntryPlan
  else
  let p := swingPlanParts a
  let entryPrice := p.entry
  let stopLoss := p.stop
  let target1 := p.t1
  let target2 := p.t2
  let rrStats := applyRoundTripCostModel entryPrice stopLoss target1
    DEFAULT_SWING_ROUND_TRIP_COST_BPS
  let rrGross := planRRGross entryPrice stopLoss target1
    DEFAULT_SWING_ROUND_TRIP_COST_BPS
  let rrNet := planRRNet entryPrice stopLoss target1
    DEFAULT_SWING_ROUND_TRIP_COST_BPS
  { entryPrice := some entryPrice
    stopLoss := some stopLoss
    target1 := some target1
    target2 := some target2
    entryReason := p.reason
    entryType := p.ty
    riskReward := formatRatio2 rrNet
    riskRewardAfterCosts := formatRatio2 rrNet
    riskRewardGross := formatRatio2 rrGross
    estimatedRoundTripCostPerShare := match rrStats with
      | some st => some (roundToPaise st.estimatedRoundTripCostPerShare)
      | none => none
    estimatedRoundTripCostPct := match rrStats with
      | some st => some st.estimatedRoundTripCostPct
      | none => none }

/-! ### Backtest simulator (src/unnamed/part_003)

The market-data fetch and the IST calendar conversion of raw timestamps are
external collaborators; candles arrive in the model already carrying their
IST date/time fields, and historical data is a pure function from
(symbol, interval) to candle lists.  The file-store branch of persistence is
modelled as explicit state passing over the run list; the Mongo branch is
the external-store mirror of the same latest-comparable-run dedup. -/

def SESSION_OPEN_MIN : ℤ := 9 * 60 + 15
def SESSION_CLOSE_MIN : ℤ := 15 * 60 + 30
def BACKTEST_INTERVAL_PRIORITY : List String := ["1m", "2m", "5m"]
def BACKTEST_HISTORY_LIMIT : ℕ := 1000

/-- `a || b` for a nullable string against a string default. -/
def jsOrS (a : Option String) (b : String) : String :=
  match a with
  | some s => if s = "" then b else s
  | none => b

structure CandleIn where
  timestamp : String
  istDate : String
  istTime : String
  minutes : Option ℤ
  opn : Option ℚ
  high : Option ℚ
  low : Option ℚ
  close : Option ℚ
deriving Repr, DecidableEq

structure DayCandle where
  timestamp : String
  istDate : String
  istTime : String
  minutes : ℤ
  opn : ℚ
  high : ℚ
  low : ℚ
  close : ℚ
deriving Repr, DecidableEq

/-- Generic stable insertion sort with a goes-before-or-tied predicate;
models the stable JS Array.prototype.sort. -/
def insertByLe {α : Type} (le : α → α → Bool) (x : α) : List α → List α
  | [] => [x]
  | y :: ys => if le x y then x :: y :: ys else y :: insertByLe le x ys

def sortByLe {α : Type} (le : α → α → Bool) (l : List α) : List α :=
  l.foldr (insertByLe le) []

/-- normalizeDayCandles: keep candles with a truthy timestamp, finite OHLC
and parseable time, on the trade date and within the 09:15-15:30 session,
sorted by minute. -/
def normalizeDayCandles (candles : List CandleIn) (tradeDate : String) :
    List DayCandle :=
  sortByLe (fun a b => decide (a.minutes ≤ b.minutes))
    (candles.filterMap fun c =>
      if c.timestamp = "" then none else
      match c.opn, c.high, c.low, c.close, c.minutes with
      | some o, some h, some l, some cl, some m =>
          if c.istDate = tradeDate ∧ SESSION_OPEN_MIN ≤ m ∧ m ≤ SESSION_CLOSE_MIN then
            some ⟨c.timestamp, c.istDate, c.istTime, m, o, h, l, cl⟩
          else none
      | _, _, _, _, _ => none)

/-- fetchBestGranularityCandles: first interval in priority order whose
session-filtered candle set is non-empty; falls back to the last interval
with no candles. -/
def bestGranularity (data : String → String → List CandleIn)
    (symbol tradeDate : String) : List String → String × List DayCandle
  | [] => ("5m", [])
  | i :: rest =>
      let dayCandles := normalizeDayCandles (data symbol i) tradeDate
      if dayCandles ≠ [] then (i, dayCandles)
      else match rest with
        | [] => (i, [])
        | _ => bestGranularity data symbol tradeDate rest

def fetchBestGranularityCandles (data : String → String → List CandleIn)
    (symbol tradeDate : String) : String × List DayCandle :=
  bestGranularity data symbol tradeDate BACKTEST_INTERVAL_PRIORITY

structure Trade where
  symbol : String
  resolvedSymbol : String
  companyName : Option String
  entryType : Option String
  entryReason : Option String
  entryPrice : Option ℚ
  stopLoss : Option ℚ
  target1 : Option ℚ
  target2 : Option ℚ
  candleInterval : Option String
  capitalConfigured : ℚ
  status : String
  outcome : String
  reason : String
  quantity : ℤ
  investedAmount : ℚ
  grossPnl : ℚ
  netPnl : ℚ
  roundTripCost : ℚ
  exitType : Option String
  exitPrice : Option ℚ
  entryTriggeredAt : Option String
  entryTriggeredTimestamp : Option String
  exitTriggeredAt : Option String
  exitTriggeredTimestamp : Option String
  evaluatedFromTime : Option String
  lastCheckedAt : Option String
deriving Repr, DecidableEq

/-- The fields shared by every outcome of backtestSinglePick. -/
def baseTrade (pick : SanePick) (symbol interval : String)
    (capitalPerPick : ℚ) : Trade where
  symbol := pick.symbol
  resolvedSymbol := symbol
  companyName := pick.companyName
  entryType := pick.entryType
  entryReason := pick.entryReason
  entryPrice := pick.entryPrice
  stopLoss := pick.stopLoss
  target1 := pick.target1
  target2 := pick.target2
  candleInterval := some interval
  capitalConfigured := roundToPaise capitalPerPick
  status := ""
  outcome := ""
  reason := ""
  quantity := 0
  investedAmount := 0
  grossPnl := 0
  netPnl := 0
  roundTripCost := 0
  exitType := none
  exitPrice := none
  entryTriggeredAt := none
  entryTriggeredTimestamp := none
  exitTriggeredAt := none
  exitTriggeredTimestamp := none
  evaluatedFromTime := none
  lastCheckedAt := none

/-- backtestSinglePick: the per-pick state machine (awaiting entry, position
open, closed / no-trade terminals). -/
def backtestSinglePick (data : String → String → List CandleIn)
    (pick : SanePick) (tradeDate : String) (capitalPerPick : ℚ)
    (signalStartMinute : Option ℤ) (costBps : ℚ) : Trade :=
  let symbol := jsOrS pick.resolvedSymbol pick.symbol
  let fg := fetchBestGranularityCandles data symbol tradeDate
  let interval := fg.1
  let dayCandles := fg.2
  let base := baseTrade pick symbol interval capitalPerPick
  if dayCandles = [] then
    { base with
      status := "no_data"
      outcome := "no_trade"
      reason := "no_intraday_candles_for_date" }
  else
  let startMinute := max (signalStartMinute.getD SESSION_OPEN_MIN) SESSION_OPEN_MIN
  let tradableCandles := dayCandles.filter fun c => startMinute ≤ c.minutes
  if tradableCandles = [] then
    { base with
      status := "no_trade"
      outcome := "no_trade"
      reason := "no_candles_after_signal_time" }
  else
  let e := pick.entryPrice.getD 0
  let quantity : ℤ := ⌊capitalPerPick / e⌋
  if quantity < 1 then
    { base with
      status := "no_trade"
      outcome := "no_trade"
      reason := "capital_too_low_for_one_share" }
  else
  match tradableCandles.find? (fun c => decide (c.low ≤ e) && decide (e ≤ c.high)) with
  | none =>
      { base with
        status := "no_trade"
        outcome := "no_trade"
        reason := "entry_not_triggered"
        evaluatedFromTime := tradableCandles.head?.map (·.istTime) }
  | some entryCandle =>
      let roundTripCost := e * (quantity : ℚ) * (costBps / 10000)
      let startIdx := tradableCandles.findIdx fun c => c.timestamp = entryCandle.timestamp
      let scan := tradableCandles.drop startIdx
      let exitOpt := scan.findSome? fun c =>
        (pickEntryExitForCandle c.low c.high (pick.stopLoss.getD 0)
          (pick.target1.getD 0) (pick.target2.getD 0)).map (fun ex => (ex, c))
      match exitOpt with
      | none =>
          { base with
            status := "no_trade"
            outcome := "no_trade"
            reason := "no_exit_level_hit_by_close"
            entryTriggeredAt := some entryCandle.istTime
            entryTriggeredTimestamp := some entryCandle.timestamp
            lastCheckedAt := tradableCandles.getLast?.map (·.istTime) }
      | some (ex, c) =>
          let investedAmount := e * (quantity : ℚ)
          let grossPnl := (ex.exitPrice - e) * (quantity : ℚ)
          let netPnl := grossPnl - roundTripCost
          { base with
            status := "closed"
            outcome := if ex.exitType = "stop_loss" then "loss" else "win"
            reason := ex.reason
            quantity := quantity
            investedAmount := roundToPaise investedAmount
            entryTriggeredAt := some entryCandle.istTime
            entryTriggeredTimestamp := some entryCandle.timestamp
            exitTriggeredAt := some c.istTime
            exitTriggeredTimestamp := some c.timestamp
            exitType := some ex.exitType
            exitPrice := some (roundToPaise ex.exitPrice)
            grossPnl := roundToPaise grossPnl
            netPnl := roundToPaise netPnl
            roundTripCost := roundToPaise roundTripCost }

/-! #### Summary aggregation (buildSummary) -/

structure SetupSlotData where
  entryType : String
  total : ℕ
  wins : ℕ
  losses : ℕ
  noTrade : ℕ
  netPnl : ℚ
deriving Repr, DecidableEq

structure SetupPerf where
  entryType : String
  total : ℕ
  wins : ℕ
  losses : ℕ
  noTrade : ℕ
  netPnl : ℚ
  winRate : ℚ
deriving Repr, DecidableEq

def slotAdd (t : Trade) (s : SetupSlotData) : SetupSlotData :=
  { s with
    total := s.total + 1
    wins := if t.outcome = "win" then s.wins + 1 else s.wins
    losses := if t.outcome ≠ "win" ∧ t.outcome = "loss" then s.losses + 1 else s.losses
    noTrade := if t.outcome ≠ "win" ∧ t.outcome ≠ "loss" then s.noTrade + 1 else s.noTrade
    netPnl := s.netPnl + t.netPnl }

/-- Insertion-ordered map update, as a JS Map. -/
def upsertSetup (key : String) (t : Trade) : List SetupSlotData → List SetupSlotData
  | [] => [slotAdd t ⟨key, 0, 0, 0, 0, 0⟩]
  | s :: rest =>
      if s.entryType = key then slotAdd t s :: rest
      else s :: upsertSetup key t rest

def upsertLossReason (key : String) : List (String × ℕ) → List (String × ℕ)
  | [] => [(key, 1)]
  | p :: rest => if p.1 = key then (p.1, p.2 + 1) :: rest else p :: upsertLossReason key rest

structure Summary where
  totalSignals : ℕ
  tradesClosed : ℕ
  wins : ℕ
  losses : ℕ
  noTrade : ℕ
  target1Hits : ℕ
  target2Hits : ℕ
  stopLossHits : ℕ
  decisiveTrades : ℕ
  winRate : ℚ
  recommendationAccuracyPct : ℚ
  recommendationVerdict : String
  grossPnl : ℚ
  netPnl : ℚ
  deployedCapital : ℚ
  configuredExposure : ℚ
  roiOnConfiguredExposurePct : ℚ
  roiOnDeployedCapitalPct : ℚ
  setupPerformance : List SetupPerf
  lossReasons : List (String × ℕ)
  roundTripCostBps : ℚ
deriving Repr, DecidableEq

/-- buildSummary from src/unnamed/part_003. -/
def buildSummary (trades : List Trade) (capital : ℚ) (allocationMode : String)
    (costBps : ℚ) : Summary :=
  let wins := (trades.filter fun t => t.outcome = "win").length
  let losses := (trades.filter fun t => t.outcome = "loss").length
  let executed := trades.filter fun t => t.status = "closed"
  let noTrade := (trades.filter fun t => t.outcome = "no_trade").length
  let target1Hits := (trades.filter fun t => t.exitType = some "target1_hit").length
  let target2Hits := (trades.filter fun t => t.exitType = some "target2_hit").length
  let stopLossHits := (trades.filter fun t => t.exitType = some "stop_loss").length
  let grossPnl := executed.foldl (fun sum t => sum + t.grossPnl) 0
  let netPnl := executed.foldl (fun sum t => sum + t.netPnl) 0
  let deployedCapital := executed.foldl (fun sum t => sum + t.investedAmount) 0
  let configuredExposure :=
    if allocationMode = "split_across_picks" then capital
    else capital * trades.length
  let winRate : ℚ :=
    if 0 < wins + losses then (wins : ℚ) / ((wins : ℚ) + losses) * 100 else 0
  let roiOnConfiguredExposure :=
    if 0 < configuredExposure then netPnl / configuredExposure * 100 else 0
  let roiOnDeployedCapital :=
    if 0 < deployedCapital then netPnl / deployedCapital * 100 else 0
  let decisiveTrades := wins + losses
  let recommendationAccuracyPct : ℚ :=
    if 0 < decisiveTrades then (wins : ℚ) / (decisiveTrades : ℚ) * 100 else 0
  let byEntryType := trades.foldl
    (fun acc t => upsertSetup (jsOrS t.entryType "unknown") t acc) []
  let byLossReason := trades.foldl
    (fun acc t =>
      if t.outcome = "loss" then
        upsertLossReason (if t.reason = "" then "unknown_loss_reason" else t.reason) acc
      else acc) []
  let setupPerformance := sortByLe (fun a b => decide (b.total ≤ a.total))
    (byEntryType.map fun s =>
      { entryType := s.entryType
        total := s.total
        wins := s.wins
        losses := s.losses
        noTrade := s.noTrade
        netPnl := roundToPaise s.netPnl
        winRate := roundToPaise
          (if 0 < s.wins + s.losses then
            (s.wins : ℚ) / ((s.wins : ℚ) + s.losses) * 100
          else 0) })
  let lossReasons := sortByLe (fun a b => decide (b.2 ≤ a.2)) byLossReason
  let recommendationVerdict :=
    if 3 ≤ decisiveTrades then
      if 55 ≤ recommendationAccuracyPct ∧ 0 < netPnl then "working"
      else if 45 ≤ recommendationAccuracyPct then "mixed_refine"
      else "needs_refinement"
    else "insufficient_data"
  { totalSignals := trades.length
    tradesClosed := executed.length
    wins := wins
    losses := losses
    noTrade := noTrade
    target1Hits := target1Hits
    target2Hits := target2Hits
    stopLossHits := stopLossHits
    decisiveTrades := decisiveTrades
    winRate := roundToPaise winRate
    recommendationAccuracyPct := roundToPaise recommendationAccuracyPct
    recommendationVerdict := recommendationVerdict
    grossPnl := roundToPaise grossPnl
    netPnl := roundToPaise netPnl
    deployedCapital := roundToPaise deployedCapital
    configuredExposure := roundToPaise configuredExposure
    roiOnConfiguredExposurePct := roundToPaise roiOnConfiguredExposure
    roiOnDeployedCapitalPct := roundToPaise roiOnDeployedCapital
    setupPerformance := setupPerformance
    lossReasons := lossReasons
    roundTripCostBps := costBps }

/-! #### Run records, dedup, and the run builder -/

structure BRun where
  id : String
  createdAt : String
  tradeDate : String
  capital : ℚ
  allocationMode : String
  snapshotMode : String
  snapshotId : String
  snapshotCreatedAt : String
  summary : Summary
  trades : List Trade
deriving Repr, DecidableEq

/-- comparableRunPayload: exactly the fields serialized for dedup comparison
(id, createdAt, snapshotMode and validation metadata are excluded). -/
structure ComparableRun where
  tradeDate : String
  capital : ℚ
  allocationMode : String
  snapshotId : String
  summary : Summary
  trades : List Trade
deriving Repr, DecidableEq

def comparableRunPayload (r : BRun) : ComparableRun :=
  ⟨r.tradeDate, r.capital, r.allocationMode, r.snapshotId, r.summary, r.trades⟩

def isSameBacktestOutcome (a b : BRun) : Bool :=
  comparableRunPayload a = comparableRunPayload b

def sameRunKey (r run : BRun) : Bool :=
  r.tradeDate = run.tradeDate && decide (r.capital = run.capital) &&
  r.allocationMode = run.allocationMode && r.snapshotId = run.snapshotId

/-- latestComparableRunFile: latest stored run (by createdAt, descending)
with the same (tradeDate, capital, allocationMode, snapshotId) key. -/
def latestComparableRun (runs : List BRun) (run : BRun) : Option BRun :=
  (sortByLe (fun a b => decide (b.createdAt ≤ a.createdAt))
    (runs.filter (sameRunKey · run))).head?

structure PersistResult where
  saved : Bool
  storage : String
  existingRunId : Option String
deriving Repr, DecidableEq

/-- persistBacktestRunFile: append and trim to the newest
BACKTEST_HISTORY_LIMIT runs. -/
def persistBacktestRunFile (runs : List BRun) (run : BRun) : List BRun :=
  let runs2 := runs ++ [run]
  if BACKTEST_HISTORY_LIMIT < runs2.length then
    runs2.drop (runs2.length - BACKTEST_HISTORY_LIMIT)
  else runs2

/-- persistBacktestRunWithDedup over the file store: a run whose comparable
payload equals the latest stored run for its key is not persisted again. -/
def persistBacktestRunWithDedup (runs : List BRun) (run : BRun) :
    PersistResult × List BRun :=
  match latestComparableRun runs run with
  | some latest =>
      if isSameBacktestOutcome run latest then
        (⟨false, "file", if latest.id = "" then none else some latest.id⟩, runs)
      else (⟨true, "file", none⟩, persistBacktestRunFile runs run)
  | none => (⟨true, "file", none⟩, persistBacktestRunFile runs run)

/-- A stored signal snapshot; istTimeMinutes is
parseISTTimeToMinutes(snapshot.istTime) (HH:MM parsing of an external
string). -/
structure Snapshot where
  id : String
  createdAt : String
  istDate : String
  istTimeMinutes : Option ℤ
  picks : List (Option RawPick)
deriving Repr, DecidableEq

def normalizeAllocationMode (mode : Option String) : String :=
  let value := jsToLower (jsOrS mode "per_pick")
  if value = "split_across_picks" then "split_across_picks" else "per_pick"

/-- The run record built by runIntradayBacktest from a chosen snapshot, a
trade date, a capital amount and an allocation mode (runId/createdAt are the
wall-clock identifiers attached to the run). -/
def mkBacktestRun (snap : Snapshot) (tradeDate : String) (capital : ℚ)
    (allocationMode snapshotMode runId createdAt : String)
    (data : String → String → List CandleIn) : BRun :=
  let picks := sanitizePicks snap.picks
  let perPickCapital :=
    if allocationMode = "split_across_picks" then capital / picks.length
    else capital
  let trades := picks.map fun p =>
    backtestSinglePick data p tradeDate perPickCapital snap.istTimeMinutes
      DEFAULT_INTRADAY_ROUND_TRIP_COST_BPS
  let summary := buildSummary trades capital allocationMode
    DEFAULT_INTRADAY_ROUND_TRIP_COST_BPS
  { id := runId
    createdAt := createdAt
    tradeDate := tradeDate
    capital := roundToPaise capital
    allocationMode := allocationMode
    snapshotMode := snapshotMode
    snapshotId := snap.id
    snapshotCreatedAt := snap.createdAt
    summary := summary
    trades := trades }

/-- The precondition-checked core of runIntradayBacktest for an already
selected snapshot: positive capital and a non-empty sanitized pick list,
else the explicit thrown errors. -/
def computeBacktestRun (snap : Snapshot) (tradeDate : String) (capital : ℚ)
    (allocationMode : Option String) (snapshotMode runId createdAt : String)
    (data : String → String → List CandleIn) : Except String BRun :=
  if capital ≤ 0 then .error "Capital must be a positive number"
  else if sanitizePicks snap.picks = [] then .error "No valid picks in snapshot"
  else .ok (mkBacktestRun snap tradeDate capital
    (normalizeAllocationMode allocationMode) snapshotMode runId createdAt data)

structure BacktestResponse where
  responseId : String
  persisted : Bool
  duplicateOfRunId : Option String
  storage : String
deriving Repr, DecidableEq

/-- The tail of runIntradayBacktest: persist with dedup and report whether
the run was stored or is a duplicate of an earlier identical run. -/
def finalizeBacktestRun (runs : List BRun) (run : BRun) :
    BacktestResponse × List BRun :=
  let pr := persistBacktestRunWithDedup runs run
  (⟨if pr.1.saved then run.id else (pr.1.existingRunId.getD run.id),
    pr.1.saved,
    if pr.1.saved then none else pr.1.existingRunId,
    pr.1.storage⟩, pr.2)

/-! ### Concrete inputs used by witnesses and counterexamples -/

def demoMonotoneCloses : List ℚ :=
  [1, 2, 3, 4, 5, 6, 7, 8, 9, 10, 11, 12, 13, 14, 15, 16]

def demoRawPick : RawPick where
  symbol := some "TCS"
  normalizedSymbol := none
  resolvedSymbol := none
  companyName := none
  entryType := some "vwap_pullback"
  entryReason := none
  entryPrice := some 100
  stopLoss := some 99
  target1 := some 102
  target2 := some 103
  currentPrice := some 100
  riskReward := some (3/2)
  riskRewardAfterCosts := some (13/10)
  riskRewardGross := some (3/2)
  estimatedRoundTripCostPct := some (18/100)
  volatilityPct := some (11/10)

/-- A trend-continuation intraday input whose non-rejected plan puts
target1 below the market price. -/
def demoC1Args : EntryArgs where
  price := 1
  vwap := some (9/10)
  support := none
  resistance := none
  rsi := some 48
  candleColor := "green"
  gapOpenPct := none
  volumeSpike := true
  volatilityPct := some 1

instance {ε α : Type} [DecidableEq ε] [DecidableEq α] :
    DecidableEq (Except ε α) := fun a b =>
  match a, b with
  | .ok x, .ok y =>
      if h : x = y then isTrue (by rw [h]) else isFalse (by simp [h])
  | .error x, .error y =>
      if h : x = y then isTrue (by rw [h]) else isFalse (by simp [h])
  | .ok _, .error _ => isFalse (by simp)
  | .error _, .ok _ => isFalse (by simp)

def demoData : String → String → List CandleIn := fun _ _ => []

def demoSnap : Snapshot where
  id := "snap-1"
  createdAt := "2025-01-06T03:05:00.000Z"
  istDate := "2025-01-06"
  istTimeMinutes := some 600
  picks := [some demoRawPick]

def demoBRun1 : BRun :=
  mkBacktestRun demoSnap "2025-01-06" 100000 "per_pick" "latest" "run-1"
    "2025-01-06T10:00:00.000Z" demoData

def demoBRun2 : BRun :=
  mkBacktestRun demoSnap "2025-01-06" 100000 "per_pick" "latest" "run-2"
    "2025-01-06T10:05:00.000Z" demoData

def demoSwingArgs : SwingArgs where
  price := 100
  marketCap := some 50000000000
  swingVWAP := some 98
  support := none
  resistance := none
  rsi := some 55
  candleColor := "green"
  gapOpenPct := none
  gapNowPct := none
  volumeSpike := false
  volatilityPct := some 2

/-! ## Theorems -/

/-! ### Arithmetic helper lemmas -/

theorem jsRound_mono {x y : ℚ} (h : x ≤ y) : jsRound x ≤ jsRound y :=
  Int.floor_le_floor (by linarith)

theorem roundToPaise_mono {x y : ℚ} (h : x ≤ y) :
    roundToPaise x ≤ roundToPaise y := by
  have hf : jsRound (x * 100) ≤ jsRound (y * 100) := jsRound_mono (by linarith)
  have h2 : (jsRound (x * 100) : ℚ) ≤ (jsRound (y * 100) : ℚ) := by
    exact_mod_cast hf
  unfold roundToPaise
  gcongr

theorem roundToPaise_zero : roundToPaise 0 = 0 := by
  norm_num [roundToPaise, jsRound]

theorem roundToPaise_nonneg {x : ℚ} (h : 0 ≤ x) : 0 ≤ roundToPaise x := by
  have h0 : roundToPaise 0 = 0 := roundToPaise_zero
  calc (0:ℚ) = roundToPaise 0 := h0.symm
    _ ≤ roundToPaise x := roundToPaise_mono h

theorem round1_nonneg {x : ℚ} (h : 0 ≤ x) : 0 ≤ round1 x := by
  unfold round1 jsRound
  have h1 : (0:ℤ) ≤ ⌊x * 10 + 1/2⌋ := Int.floor_nonneg.mpr (by linarith)
  have h2 : (0:ℚ) ≤ (⌊x * 10 + 1/2⌋ : ℚ) := by exact_mod_cast h1
  exact div_nonneg h2 (by norm_num)

theorem round1_le_100 {x : ℚ} (h : x ≤ 100) : round1 x ≤ 100 := by
  unfold round1 jsRound
  have h1 : ⌊x * 10 + 1/2⌋ ≤ 1000 := by
    have : x * 10 + 1/2 ≤ 1000 + 1/2 := by linarith
    have h2 := Int.floor_le_floor this
    simpa using le_trans h2 (by norm_num [Int.floor_le_iff])
  have h2 : ((⌊x * 10 + 1/2⌋ : ℤ) : ℚ) ≤ 1000 := by exact_mod_cast h1
  linarith [h2]

theorem clampQ_le_right {x lo hi : ℚ} : clampQ x lo hi ≤ hi := min_le_right _ _

theorem le_clampQ_of_le {x lo hi : ℚ} (h : lo ≤ hi) : lo ≤ clampQ x lo hi :=
  le_min (le_max_right _ _) h

theorem clampQ_nonneg {x lo hi : ℚ} (hlo : 0 ≤ lo) (hhi : 0 ≤ hi) :
    0 ≤ clampQ x lo hi :=
  le_min (le_trans hlo (le_max_right _ _)) hhi

/-! ### Claim C2 -/

/-- C2: in the backtest exit scan, a candle whose [low, high] range contains
both the stop-loss and at least one target records a stop_loss exit at the
stop-loss price (never a target hit); a candle containing both targets but
not the stop-loss records target2, which takes priority over target1.  (The
ordering hypothesis stopLoss < target1 of the second part is the sanitized
pick invariant under which the scan runs.) -/
theorem claim_C2_exit_tiebreak (low high stopLoss target1 target2 : ℚ) :
    ((low ≤ stopLoss ∧ stopLoss ≤ high) →
      ((low ≤ target1 ∧ target1 ≤ high) ∨ (low ≤ target2 ∧ target2 ≤ high)) →
      pickEntryExitForCandle low high stopLoss target1 target2 =
        some ⟨"stop_loss", stopLoss, "sl_and_target_same_candle_stop_priority"⟩) ∧
    (stopLoss < target1 → (low ≤ target1 ∧ target1 ≤ high) →
      (low ≤ target2 ∧ target2 ≤ high) →
      ¬(low ≤ stopLoss ∧ stopLoss ≤ high) →
      pickEntryExitForCandle low high stopLoss target1 target2 =
        some ⟨"target2_hit", target2, "target2_hit"⟩) := by
  constructor
  · rintro ⟨hsl, _⟩ ht
    have ht2 : target1 ≤ high ∨ target2 ≤ high := by tauto
    unfold pickEntryExitForCandle
    dsimp only
    split_ifs with hA <;> first | rfl | exact absurd ⟨hsl, ht2⟩ hA
  · rintro ho ⟨ha, hb⟩ ⟨hc, hd⟩ hn
    have hslhigh : stopLoss ≤ high := le_trans (le_of_lt ho) hb
    have hnl : ¬ low ≤ stopLoss := fun h => hn ⟨h, hslhigh⟩
    unfold pickEntryExitForCandle
    dsimp only
    split_ifs with hA hB hC <;>
      first
        | rfl
        | (exact absurd hA.1 hnl)
        | (exact absurd hB hnl)
        | (exact absurd hd hC)

theorem claim_C2_exit_tiebreak_witness :
    pickEntryExitForCandle 10 20 12 15 18 =
      some ⟨"stop_loss", 12, "sl_and_target_same_candle_stop_priority"⟩ ∧
    pickEntryExitForCandle 10 20 5 15 18 =
      some ⟨"target2_hit", 18, "target2_hit"⟩ := by
  constructor
  · exact (claim_C2_exit_tiebreak 10 20 12 15 18).1 (by norm_num)
      (Or.inl (by norm_num))
  · exact (claim_C2_exit_tiebreak 10 20 5 15 18).2 (by norm_num) (by norm_num)
      (by norm_num) (by norm_num)

/-! ### Claim C9 -/

/-- C9: the adaptive quality threshold derived from any batch of scored swing
candidates lies within [34, 56]; for an empty batch, or one with no finite
scores, it is exactly 40. -/
theorem claim_C9_threshold_bounds (scored : List (Option ℚ)) :
    34 ≤ deriveAdaptiveQualityThreshold scored ∧
    deriveAdaptiveQualityThreshold scored ≤ 56 ∧
    ((scored = [] ∨ scored.filterMap id = []) →
      deriveAdaptiveQualityThreshold scored = 40) := by
  unfold deriveAdaptiveQualityThreshold
  dsimp only
  split_ifs with h1 h2
  · exact ⟨by norm_num, by norm_num, fun _ => rfl⟩
  · exact ⟨by norm_num, by norm_num, fun _ => rfl⟩
  · refine ⟨le_min (le_max_right _ _) (by norm_num), min_le_right _ _, ?_⟩
    intro h
    exfalso
    rcases h with h | h
    · rw [h] at h1
      exact h1 rfl
    · rw [h] at h2
      exact h2 rfl

theorem claim_C9_threshold_bounds_witness :
    34 ≤ deriveAdaptiveQualityThreshold [] ∧
    deriveAdaptiveQualityThreshold [] ≤ 56 ∧
    deriveAdaptiveQualityThreshold [] = 40 :=
  ⟨(claim_C9_threshold_bounds []).1, (claim_C9_threshold_bounds []).2.1,
   (claim_C9_threshold_bounds []).2.2 (Or.inl rfl)⟩

/-! ### Claim C10 -/

/-- C10: every pick admitted by sanitizePicks (the gate through which every
snapshot pick and every backtest pick passes) has a non-empty symbol,
positive entry and stop prices, and the strict ordering
stopLoss < entryPrice < target1 < target2; offending picks are dropped by the
total (never-throwing) filter. -/
theorem claim_C10_sanitize_invariant (picks : List (Option RawPick))
    (p : SanePick) (hp : p ∈ sanitizePicks picks) :
    p.symbol ≠ "" ∧
    ∃ e s t1 t2 : ℚ, p.entryPrice = some e ∧ p.stopLoss = some s ∧
      p.target1 = some t1 ∧ p.target2 = some t2 ∧
      0 < e ∧ 0 < s ∧ s < e ∧ e < t1 ∧ t1 < t2 := by
  unfold sanitizePicks at hp
  have hok := (List.mem_filter.mp hp).2
  unfold sanePickOK at hok
  rcases hep : p.entryPrice with _ | e <;> rw [hep] at hok <;>
  rcases hsp : p.stopLoss with _ | s <;> rw [hsp] at hok <;>
  rcases ht1 : p.target1 with _ | t1 <;> rw [ht1] at hok <;>
  rcases ht2 : p.target2 with _ | t2 <;> rw [ht2] at hok <;>
    simp only [Bool.and_eq_true, decide_eq_true_eq, bne_iff_ne,
      Bool.false_eq_true] at hok
  obtain ⟨⟨⟨⟨⟨hsym, he⟩, hs⟩, h13⟩, h34⟩, hse⟩ := hok
  exact ⟨hsym, e, s, t1, t2, rfl, rfl, rfl, rfl, he, hs, hse, h13, h34⟩

unseal Rat.add Rat.sub Rat.mul Rat.inv Rat.ofScientific in
theorem claim_C10_sanitize_invariant_witness :
    mapPick demoRawPick ∈ sanitizePicks [some demoRawPick] ∧
    ((mapPick demoRawPick).symbol ≠ "" ∧
     ∃ e s t1 t2 : ℚ, (mapPick demoRawPick).entryPrice = some e ∧
       (mapPick demoRawPick).stopLoss = some s ∧
       (mapPick demoRawPick).target1 = some t1 ∧
       (mapPick demoRawPick).target2 = some t2 ∧
       0 < e ∧ 0 < s ∧ s < e ∧ e < t1 ∧ t1 < t2) :=
  ⟨by decide,
   claim_C10_sanitize_invariant [some demoRawPick] (mapPick demoRawPick)
     (by decide)⟩

/-! ### Claim C4 -/

unseal Rat.add Rat.sub Rat.mul Rat.inv Rat.ofScientific in
/-- C4 counterexample: with positive risk (100 > 90 > 0) and non-negative
cost (18 bps) but target1 = 95 below the entry, the cost model returns
riskRewardAfterCosts = 0 while riskRewardGross = -1/2, so the claimed
riskRewardAfterCosts ≤ riskRewardGross fails (0 ≤ -1/2 is false). -/
theorem claim_C4_counterexample :
    (0 : ℚ) < 100 - 90 ∧ (0 : ℚ) ≤ 18 ∧
    applyRoundTripCostModel 100 90 95 18 =
      some ⟨-(1/2), some 0, 9/50, 9/50⟩ ∧
    ¬((0 : ℚ) ≤ -(1/2)) := by decide

/-- C4 amended: for plans with positive risk (entryPrice > stopLoss > 0),
non-negative cost basis points, and a reward leg that is not already negative
(target1 ≥ entryPrice), the cost-adjusted risk-reward never exceeds the gross
risk-reward. -/
theorem claim_C4_net_le_gross (entryPrice stopLoss target1 costBps : ℚ)
    (hs : 0 < stopLoss) (hrisk : stopLoss < entryPrice) (hc : 0 ≤ costBps)
    (hreward : entryPrice ≤ target1) :
    ∀ st, applyRoundTripCostModel entryPrice stopLoss target1 costBps = some st →
      ∀ v, st.riskRewardAfterCosts = some v → v ≤ st.riskRewardGross := by
  intro st hst v hv
  have he : 0 < entryPrice := lt_trans hs hrisk
  have hriskpos : 0 < entryPrice - stopLoss := by linarith
  unfold applyRoundTripCostModel calculateRiskReward at hst
  rw [if_neg (not_le.mpr he)] at hst
  rw [if_neg (not_le.mpr hriskpos)] at hst
  simp only [Option.some.injEq] at hst
  subst hst
  simp only at hv
  set c := entryPrice * ((if 0 ≤ costBps then costBps else 0) / 10000) with hcdef
  have hcpos : 0 ≤ c := by
    rw [hcdef, if_pos hc]
    positivity
  have hmaxrisk : max (entryPrice - stopLoss) 0 = entryPrice - stopLoss :=
    max_eq_left (le_of_lt hriskpos)
  have hmaxreward : max (target1 - entryPrice) 0 = target1 - entryPrice :=
    max_eq_left (by linarith)
  rw [hmaxrisk, hmaxreward] at hv
  have hnetrisk : 0 < entryPrice - stopLoss + c := by linarith
  rw [if_pos hnetrisk] at hv
  simp only [Option.some.injEq] at hv
  subst hv
  have h1 : max (target1 - entryPrice - c) 0 ≤ target1 - entryPrice :=
    max_le (by linarith) (by linarith)
  have h2 : max (target1 - entryPrice - c) 0 / (entryPrice - stopLoss + c) ≤
      (target1 - entryPrice) / (entryPrice - stopLoss + c) := by gcongr
  have h3 : (target1 - entryPrice) / (entryPrice - stopLoss + c) ≤
      (target1 - entryPrice) / (entryPrice - stopLoss) := by
    apply div_le_div_of_nonneg_left (by linarith) hriskpos (by linarith)
  exact le_trans h2 h3

unseal Rat.add Rat.sub Rat.mul Rat.inv Rat.ofScientific in
theorem claim_C4_net_le_gross_witness :
    (0 : ℚ) < 90 ∧ (90 : ℚ) < 100 ∧ (0 : ℚ) ≤ 18 ∧ (100 : ℚ) ≤ 120 ∧
    applyRoundTripCostModel 100 90 120 18 =
      some ⟨2, some (991/509), 9/50, 9/50⟩ ∧
    (991/509 : ℚ) ≤ 2 :=
  ⟨by decide, by decide, by decide, by decide, by decide,
   claim_C4_net_le_gross 100 90 120 18 (by norm_num) (by norm_num)
     (by norm_num) (by norm_num) ⟨2, some (991/509), 9/50, 9/50⟩ (by decide)
     (991/509) rfl⟩

/-! ### Claim C8 -/

theorem averageJS_nonneg {l : List ℚ} {v : ℚ} (hl : ∀ x ∈ l, 0 ≤ x)
    (h : averageJS l = some v) : 0 ≤ v := by
  unfold averageJS at h
  split_ifs at h with he
  simp only [Option.some.injEq] at h
  subst h
  exact div_nonneg (List.sum_nonneg hl) (by positivity)

theorem averageJS_ne_empty {l : List ℚ} {v : ℚ} (h : averageJS l = some v) :
    l ≠ [] := by
  intro he
  subst he
  simp [averageJS] at h

theorem wilderStep_nonneg {period avg x : ℚ} (hp : 1 ≤ period) (ha : 0 ≤ avg)
    (hx : 0 ≤ x) : 0 ≤ wilderStep period avg x := by
  unfold wilderStep
  have h1 : (0:ℚ) ≤ avg * (period - 1) := mul_nonneg ha (by linarith)
  exact div_nonneg (by linarith) (by linarith)

theorem foldl_wilder_nonneg (period : ℚ) (hp : 1 ≤ period)
    (l : List (ℚ × ℚ)) (hl : ∀ x ∈ l, 0 ≤ x.1 ∧ 0 ≤ x.2) :
    ∀ init : ℚ × ℚ, 0 ≤ init.1 → 0 ≤ init.2 →
      0 ≤ (l.foldl (fun acc p =>
        (wilderStep period acc.1 p.1, wilderStep period acc.2 p.2)) init).1 ∧
      0 ≤ (l.foldl (fun acc p =>
        (wilderStep period acc.1 p.1, wilderStep period acc.2 p.2)) init).2 := by
  induction l with
  | nil => intro init h1 h2; exact ⟨h1, h2⟩
  | cons a as ih =>
      intro init h1 h2
      have ha := hl a (List.mem_cons_self a as)
      have has : ∀ x ∈ as, 0 ≤ x.1 ∧ 0 ≤ x.2 :=
        fun x hx => hl x (List.mem_cons_of_mem a hx)
      exact ih has _ (wilderStep_nonneg hp h1 ha.1) (wilderStep_nonneg hp h2 ha.2)

/-- The smoothed Wilder averages are non-negative (and demand period ≥ 1). -/
theorem computeRSIAverages_nonneg {closes : List ℚ} {period : ℕ} {ag al : ℚ}
    (h : computeRSIAverages closes period = some (ag, al)) :
    0 ≤ ag ∧ 0 ≤ al := by
  unfold computeRSIAverages at h
  dsimp only at h
  set changes := (closes.zip closes.tail).map fun p => p.2 - p.1 with hch
  set gains := changes.map fun c => max 0 c with hg
  set losses := changes.map fun c => max 0 (-c) with hlo
  rcases hag : averageJS (gains.take period) with _ | ag0 <;> rw [hag] at h
  · simp at h
  rcases hal : averageJS (losses.take period) with _ | al0 <;> rw [hal] at h
  · simp at h
  simp only [Option.some.injEq] at h
  have hg_nonneg : ∀ x ∈ gains, 0 ≤ x := by
    intro x hx
    rw [hg] at hx
    obtain ⟨c, _, rfl⟩ := List.mem_map.mp hx
    exact le_max_left 0 c
  have hl_nonneg : ∀ x ∈ losses, 0 ≤ x := by
    intro x hx
    rw [hlo] at hx
    obtain ⟨c, _, rfl⟩ := List.mem_map.mp hx
    exact le_max_left 0 (-c)
  have hag0 : 0 ≤ ag0 :=
    averageJS_nonneg (fun x hx => hg_nonneg x (List.mem_of_mem_take hx)) hag
  have hal0 : 0 ≤ al0 :=
    averageJS_nonneg (fun x hx => hl_nonneg x (List.mem_of_mem_take hx)) hal
  have hpne : gains.take period ≠ [] := averageJS_ne_empty hag
  have hp1 : 1 ≤ period := by
    by_contra hlt
    push_neg at hlt
    interval_cases period
    simp at hpne
  have hpq : (1:ℚ) ≤ (period : ℚ) := by exact_mod_cast hp1
  have hzip : ∀ x ∈ (gains.drop period).zip (losses.drop period),
      0 ≤ x.1 ∧ 0 ≤ x.2 := by
    intro x hx
    have hx1 := List.of_mem_zip hx
    exact ⟨hg_nonneg x.1 (List.mem_of_mem_drop hx1.1),
      hl_nonneg x.2 (List.mem_of_mem_drop hx1.2)⟩
  have := foldl_wilder_nonneg (period : ℚ) hpq _ hzip (ag0, al0) hag0 hal0
  rw [h] at this
  exact this

unseal Rat.add Rat.sub Rat.mul Rat.inv Rat.ofScientific in
/-- C8 counterexample: for the monotonically increasing closes 1..16 with
period 14, the Wilder average loss is 0 but computeRSI returns 99, not 100:
the code maps avgLoss = 0 to RS = 100 (not RSI = 100), and
round(100 - 100/101, 1 decimal) = 99.0. -/
theorem claim_C8_counterexample :
    computeRSIAverages demoMonotoneCloses 14 = some (1, 0) ∧
    computeRSI demoMonotoneCloses 14 = some 99 ∧
    computeRSI demoMonotoneCloses 14 ≠ some 100 := by decide

/-- C8 amended: computeRSI returns null for len(closes) ≤ period; every
returned value lies in [0, 100]; and whenever the smoothed average loss is 0
(for example on a monotonically increasing series) the result is exactly
99.0 - the capped value produced by setting RS (not RSI) to 100 - rather
than the 100 the claim states. -/
theorem claim_C8_rsi_props (closes : List ℚ) (period : ℕ) :
    (closes.length ≤ period → computeRSI closes period = none) ∧
    (∀ v, computeRSI closes period = some v → 0 ≤ v ∧ v ≤ 100) ∧
    (∀ avgGain, computeRSIAverages closes period = some (avgGain, 0) →
      closes.length > period → computeRSI closes period = some 99) := by
  refine ⟨?_, ?_, ?_⟩
  · intro h
    unfold computeRSI
    rw [if_pos h]
  · intro v hv
    unfold computeRSI at hv
    split_ifs at hv with hlen
    rcases havg : computeRSIAverages closes period with _ | ⟨ag, al⟩ <;>
      rw [havg] at hv
    · simp at hv
    · simp only [Option.some.injEq] at hv
      subst hv
      obtain ⟨hag, hal⟩ := computeRSIAverages_nonneg havg
      set rs := if al = 0 then (100:ℚ) else ag / al with hrs
      have hrs_nonneg : 0 ≤ rs := by
        rw [hrs]
        split_ifs with h0
        · norm_num
        · exact div_nonneg hag hal
      have h1 : (0:ℚ) < 1 + rs := by linarith
      have h2 : 100 / (1 + rs) ≤ 100 := by
        calc 100 / (1 + rs) ≤ 100 / 1 :=
              div_le_div_of_nonneg_left (by norm_num) (by norm_num) (by linarith)
          _ = 100 := by norm_num
      have h3 : 0 < 100 / (1 + rs) := by positivity
      constructor
      · exact round1_nonneg (by linarith)
      · exact round1_le_100 (by linarith)
  · intro avgGain havg hlen
    unfold computeRSI
    rw [if_neg (not_le.mpr hlen), havg]
    norm_num [round1, jsRound]

unseal Rat.add Rat.sub Rat.mul Rat.inv Rat.ofScientific in
theorem claim_C8_rsi_props_witness :
    computeRSI [(1:ℚ), 2] 14 = none ∧
    ((0:ℚ) ≤ 99 ∧ (99:ℚ) ≤ 100) ∧
    computeRSI demoMonotoneCloses 14 = some 99 :=
  ⟨(claim_C8_rsi_props [1, 2] 14).1 (by norm_num),
   (claim_C8_rsi_props demoMonotoneCloses 14).2.1 99 (by decide),
   (claim_C8_rsi_props demoMonotoneCloses 14).2.2 1 (by decide) (by decide)⟩

/-! ### Claim C7 -/

unseal Rat.add Rat.sub Rat.mul Rat.inv Rat.ofScientific in
/-- C7 counterexample: a low-liquidity stock (marketCap 5e9 < 1e10) in choppy
conditions gets the verdict Choppy Market, not Low Liquidity: the chop filter
is tested before the liquidity filter, so the low-liquidity rejection is not
the first rule of the cascade and does not fire regardless of other inputs. -/
theorem claim_C7_counterexample :
    intradayLowLiquidityCond (some 5000000000) = true ∧
    (evaluateIntraday
      ⟨50, none, some 0, false, 100, some 100, none, none, "red",
        some 5000000000⟩).label = "Choppy Market – Avoid" ∧
    (evaluateIntraday
      ⟨50, none, some 0, false, 100, some 100, none, none, "red",
        some 5000000000⟩).label ≠ "Low Liquidity - Avoid" := by decide

/-- C7 amended: the low-liquidity rejection is the second rule of the
cascade, after the chop filter: whenever the chop condition does not match
and marketCap is absent, zero, or below 1e10 (about 1000 Cr), the verdict is
Low Liquidity - Avoid with negative sentiment, regardless of all other
inputs. -/
theorem claim_C7_low_liquidity_second (a : IntradayEvalArgs)
    (hchop : intradayChopCond a = false)
    (hliq : intradayLowLiquidityCond a.marketCap = true) :
    evaluateIntraday a =
      ⟨"Low Liquidity - Avoid", "negative",
       ["Insufficient liquidity for intraday trading"]⟩ := by
  unfold evaluateIntraday
  dsimp only
  rw [if_neg (by simp [hchop]), if_pos hliq]

unseal Rat.add Rat.sub Rat.mul Rat.inv Rat.ofScientific in
theorem claim_C7_low_liquidity_second_witness :
    intradayChopCond
      ⟨50, none, some 0, false, 100, some 90, none, none, "red",
        some 5000000000⟩ = false ∧
    intradayLowLiquidityCond (some 5000000000) = true ∧
    evaluateIntraday
      ⟨50, none, some 0, false, 100, some 90, none, none, "red",
        some 5000000000⟩ =
      ⟨"Low Liquidity - Avoid", "negative",
       ["Insufficient liquidity for intraday trading"]⟩ :=
  ⟨by decide, by decide,
   claim_C7_low_liquidity_second
     ⟨50, none, some 0, false, 100, some 90, none, none, "red",
       some 5000000000⟩ (by decide) (by decide)⟩

/-! ### Claim C5 -/

unseal Rat.add Rat.sub Rat.mul Rat.inv Rat.ofScientific in
/-- C5 (code bug): with gapNowPct present and equal to 0 and gapOpenPct = 1,
the current evaluateIntraday (src/unnamed/part_005, nullish fallback) uses
effective gap 0 and returns Momentum Continuation, while the superseded
variant still shipped in src/services/positionEvaluator.js (falsy fallback
with the or-operator) silently falls through to gapOpenPct = 1 and returns
Strong Intraday Buy, violating the claimed contract that gapOpenPct is
consulted only when gapNowPct is absent. -/
theorem claim_C5_falsy_gap_divergence :
    effectiveGapIntraday (some 0) (some 1) = 0 ∧
    effectiveGapLegacy (some 0) (some 1) = some 1 ∧
    (evaluateIntraday
      ⟨55, some 1, some 0, false, 101, some 100, none, none, "green",
        some 20000000000⟩).label = "Momentum Continuation" ∧
    (evaluateIntradayLegacy
      ⟨55, some 1, some 0, false, 101, some 100, none, none, "green",
        some 20000000000⟩).label = "Strong Intraday Buy" := by decide

/-! ### Claim C6 -/

unseal Rat.add Rat.sub Rat.mul Rat.inv Rat.ofScientific in
/-- C6 counterexample: price 10% above VWAP (extension limit at most 5.5%),
no volume spike, but RSI = 50: the overextended-VWAP guard does NOT
short-circuit, because the guard additionally requires RSI > 60; the
calculator runs normal strategy selection instead of returning scalp_only. -/
theorem claim_C6_counterexample :
    intradayExtensionLimit (intradayAtrPct (some (11/10))) <
      vwapExtensionOf 110 (some 100) ∧
    (calculateIntradayEntryPrice
      ⟨110, some 100, none, none, some 50, "red", none, false,
        some (11/10)⟩).entryType ≠ "scalp_only" := by decide

/-- C6 amended: whenever the price is a positive finite number, the distance
above VWAP exceeds the ATR-scaled extension limit, volumeSpike is false, AND
the normalized RSI exceeds 60, calculateIntradayEntryPrice short-circuits to
the forced tight scalp profile: entryType scalp_only with the fixed stop at
1.2% below price, targets at +1.0% and +1.8%, and risk-reward reported as
0.60 net / 0.70 gross. -/
theorem claim_C6_scalp_guard (a : EntryArgs) (hp : 0 < a.price)
    (hext : intradayExtensionLimit (intradayAtrPct a.volatilityPct) <
      vwapExtensionOf a.price a.vwap)
    (hvs : a.volumeSpike = false)
    (hrsi : 60 < a.rsi.getD 50) :
    calculateIntradayEntryPrice a =
      ⟨some (roundToPaise a.price),
       some (roundToPaise (a.price * (988/1000))),
       some (roundToPaise (a.price * (101/100))),
       some (roundToPaise (a.price * (1018/1000))),
       "Stretch Zone – Scalp Only (Overextended VWAP)", "scalp_only",
       6/10, 6/10, 7/10,
       some (roundToPaise (a.price * (DEFAULT_INTRADAY_ROUND_TRIP_COST_BPS / 10000))),
       some (DEFAULT_INTRADAY_ROUND_TRIP_COST_BPS / 100)⟩ := by
  unfold calculateIntradayEntryPrice
  dsimp only
  rw [if_neg (not_le.mpr hp), if_pos ⟨hext, by simp [hvs], hrsi⟩]

unseal Rat.add Rat.sub Rat.mul Rat.inv Rat.ofScientific in
theorem claim_C6_scalp_guard_witness :
    (0:ℚ) < 110 ∧
    intradayExtensionLimit (intradayAtrPct (some (11/10))) <
      vwapExtensionOf 110 (some 100) ∧
    (60:ℚ) < (some (65:ℚ)).getD 50 ∧
    calculateIntradayEntryPrice
      ⟨110, some 100, none, none, some 65, "red", none, false, some (11/10)⟩ =
      ⟨some (roundToPaise 110),
       some (roundToPaise (110 * (988/1000))),
       some (roundToPaise (110 * (101/100))),
       some (roundToPaise (110 * (1018/1000))),
       "Stretch Zone – Scalp Only (Overextended VWAP)", "scalp_only",
       6/10, 6/10, 7/10,
       some (roundToPaise (110 * (DEFAULT_INTRADAY_ROUND_TRIP_COST_BPS / 10000))),
       some (DEFAULT_INTRADAY_ROUND_TRIP_COST_BPS / 100)⟩ :=
  ⟨by decide, by decide, by decide,
   claim_C6_scalp_guard
     ⟨110, some 100, none, none, some 65, "red", none, false, some (11/10)⟩
     (by decide) (by decide) (by decide) (by decide)⟩

/-! ### Claim C1: structural lemmas -/

theorem finPos_pos {o : Option ℚ} (h : finPos o = true) : 0 < o.getD 0 := by
  cases o with
  | none => simp [finPos] at h
  | some v => simpa [finPos] using h

theorem validPosOpt_pos {o : Option ℚ} {s : ℚ} (h : validPosOpt o = some s) :
    0 < s := by
  cases o with
  | none => simp [validPosOpt] at h
  | some v =>
      unfold validPosOpt at h
      dsimp only at h
      split_ifs at h with hv
      all_goals first
        | (simp only [Option.some.injEq] at h
           subst h
           exact hv)
        | simp at h

theorem clampQ_pos {x lo hi : ℚ} (hlo : 0 < lo) (hhi : 0 < hi) :
    0 < clampQ x lo hi :=
  lt_min (lt_of_lt_of_le hlo (le_max_right x lo)) hhi

theorem le_applyMinT2Gap {t1 t2d step : ℚ} (h : 0 ≤ step) :
    t1 ≤ applyMinT2Gap t1 t2d step := by
  unfold applyMinT2Gap
  split_ifs with hc
  · linarith
  · linarith [not_le.mp hc]

theorem chooseIntradayStrategy_pos (a : EntryArgs) (atrPct nRSI : ℚ)
    (hp : 0 < a.price) : 0 < (chooseIntradayStrategy a atrPct nRSI).1 := by
  unfold chooseIntradayStrategy
  dsimp only
  by_cases hb1 : finPos a.vwap = true ∧ a.vwap.getD 0 < a.price ∧
      42 ≤ nRSI ∧ nRSI ≤ 80
  · rw [if_pos hb1, if_pos hb1.1]
    have hv := finPos_pos hb1.1
    have hb : 0 < clampQ (atrPct * (12/100)) (5/100) (18/100) :=
      clampQ_pos (by norm_num) (by norm_num)
    split_ifs
    · exact lt_min hp (mul_pos hv (by linarith))
    · exact hp
  · rw [if_neg hb1]
    rcases hsup : validPosOpt a.support with _ | s <;>
      rcases hres : validPosOpt a.resistance with _ | r <;>
      simp only [hsup, hres, Option.getD_some] <;>
      split_ifs <;>
      first
        | contradiction
        | exact hp
        | (refine lt_min hp (mul_pos (validPosOpt_pos hsup) ?_)
           have hb := @clampQ_pos (atrPct * (9/100)) (5/100) (16/100)
             (by norm_num) (by norm_num)
           linarith)
        | (refine lt_min hp (mul_pos (validPosOpt_pos hres) ?_)
           have hb := @clampQ_pos (atrPct * (8/100)) (4/100) (14/100)
             (by norm_num) (by norm_num)
           linarith)

theorem intradayPullbackEntry_pos (a : EntryArgs) (atrPct entry0 : ℚ)
    (ty reason : String) (h0 : 0 < entry0) :
    0 < (intradayPullbackEntry a atrPct entry0 ty reason).1 := by
  unfold intradayPullbackEntry
  dsimp only
  split_ifs with h1 h2 <;> dsimp only <;> assumption

theorem intradayPlanParts_entry (a : EntryArgs) (hp : 0 < a.price) :
    0 ≤ (intradayPlanParts a).entry ∧
    (intradayPlanParts a).entry ≤ roundToPaise a.price := by
  have h1 := chooseIntradayStrategy_pos a (intradayAtrPct a.volatilityPct)
    (a.rsi.getD 50) hp
  have h2 := intradayPullbackEntry_pos a (intradayAtrPct a.volatilityPct) _
    (chooseIntradayStrategy a (intradayAtrPct a.volatilityPct)
      (a.rsi.getD 50)).2.1
    (chooseIntradayStrategy a (intradayAtrPct a.volatilityPct)
      (a.rsi.getD 50)).2.2 h1
  unfold intradayPlanParts
  dsimp only
  constructor
  · exact roundToPaise_nonneg (le_min (le_of_lt h2) (le_of_lt hp))
  · exact roundToPaise_mono (min_le_right _ _)

theorem intradayStopAndRisk_risk_nonneg (a : EntryArgs)
    (atrPct atrMove entry : ℚ) (ty : String) (he : 0 ≤ entry) :
    0 ≤ (intradayStopAndRisk a atrPct atrMove entry ty).2 := by
  unfold intradayStopAndRisk
  dsimp only
  apply clampQ_nonneg
  · exact mul_nonneg he (div_nonneg
      (le_of_lt (clampQ_pos (by norm_num) (by norm_num))) (by norm_num))
  · exact mul_nonneg he (div_nonneg
      (le_of_lt (clampQ_pos (by norm_num) (by norm_num))) (by norm_num))

theorem intradayTargets_le (a : EntryArgs) (atrPct atrMove entry risk nRSI : ℚ)
    (ty : String) (he : 0 ≤ entry) (hr : 0 ≤ risk) :
    (intradayTargets a atrPct atrMove entry risk nRSI ty).1 ≤
      (intradayTargets a atrPct atrMove entry risk nRSI ty).2 := by
  unfold intradayTargets
  dsimp only
  apply le_applyMinT2Gap
  exact le_trans (mul_nonneg he (by norm_num)) (le_max_left _ _)

theorem intradayPlanParts_t1_le_t2 (a : EntryArgs) (hp : 0 < a.price) :
    (intradayPlanParts a).t1 ≤ (intradayPlanParts a).t2 := by
  have h1 := chooseIntradayStrategy_pos a (intradayAtrPct a.volatilityPct)
    (a.rsi.getD 50) hp
  have h2 := intradayPullbackEntry_pos a (intradayAtrPct a.volatilityPct) _
    (chooseIntradayStrategy a (intradayAtrPct a.volatilityPct)
      (a.rsi.getD 50)).2.1
    (chooseIntradayStrategy a (intradayAtrPct a.volatilityPct)
      (a.rsi.getD 50)).2.2 h1
  have he : (0:ℚ) ≤ roundToPaise (min (intradayPullbackEntry a
      (intradayAtrPct a.volatilityPct)
      (chooseIntradayStrategy a (intradayAtrPct a.volatilityPct)
        (a.rsi.getD 50)).1
      (chooseIntradayStrategy a (intradayAtrPct a.volatilityPct)
        (a.rsi.getD 50)).2.1
      (chooseIntradayStrategy a (intradayAtrPct a.volatilityPct)
        (a.rsi.getD 50)).2.2).1 a.price) :=
    roundToPaise_nonneg (le_min (le_of_lt h2) (le_of_lt hp))
  unfold intradayPlanParts
  dsimp only
  apply roundToPaise_mono
  exact intradayTargets_le a _ _ _ _ _ _ he
    (intradayStopAndRisk_risk_nonneg a _ _ _ _ he)

theorem calculateRiskReward_ge_one {e s t1 g : ℚ}
    (hg : calculateRiskReward e s t1 = some g) (h1 : 1 ≤ g) :
    s < e ∧ e < t1 := by
  unfold calculateRiskReward at hg
  dsimp only at hg
  split_ifs at hg with hle
  simp only [Option.some.injEq] at hg
  subst hg
  have hrisk : 0 < e - s := by linarith [not_le.mp hle]
  have h2 := (le_div_iff hrisk).mp h1
  constructor
  · linarith
  · linarith

theorem planRRNet_ge_one_order {e s t1 c : ℚ}
    (h : 1 ≤ (planRRNet e s t1 c).getD 0) : s < e ∧ e < t1 := by
  unfold planRRNet at h
  rcases hst : applyRoundTripCostModel e s t1 c with _ | st <;> rw [hst] at h
  · unfold planRRGross at h
    rw [hst] at h
    rcases hg : calculateRiskReward e s t1 with _ | g <;> rw [hg] at h
    · norm_num at h
    · exact calculateRiskReward_ge_one hg (by simpa using h)
  · have hepos : 0 < e := by
      by_contra hneg
      push_neg at hneg
      unfold applyRoundTripCostModel at hst
      rw [if_pos hneg] at hst
      exact Option.noConfusion hst
    rcases hg : calculateRiskReward e s t1 with _ | g
    · unfold applyRoundTripCostModel at hst
      rw [if_neg (not_le.mpr hepos), hg] at hst
      exact Option.noConfusion hst
    · have hrisk : 0 < e - s := by
        unfold calculateRiskReward at hg
        dsimp only at hg
        split_ifs at hg with hle
        linarith [not_le.mp hle]
      have hge := calculateRiskReward_ge_one hg
      unfold applyRoundTripCostModel at hst
      rw [if_neg (not_le.mpr hepos), hg] at hst
      dsimp only at hst
      have hrec := Option.some.inj hst
      subst hrec
      dsimp only at h
      set eff : ℚ := if 0 ≤ c then c else 0 with heff
      have heffnn : 0 ≤ eff := by
        rw [heff]
        split_ifs with hcc
        · exact hcc
        · exact le_rfl
      have hcost : 0 ≤ e * (eff / 10000) :=
        mul_nonneg (le_of_lt hepos) (div_nonneg heffnn (by norm_num))
      have hmax : max (e - s) 0 = e - s := max_eq_left (le_of_lt hrisk)
      rw [hmax] at h
      have hnetpos : 0 < e - s + e * (eff / 10000) := by linarith
      rw [if_pos hnetpos] at h
      dsimp only at h
      have h1 : 1 ≤ max (max (t1 - e) 0 - e * (eff / 10000)) 0 /
          (e - s + e * (eff / 10000)) := by simpa using h
      have h2 := (le_div_iff hnetpos).mp h1
      rw [one_mul] at h2
      have h3 : 0 < max (max (t1 - e) 0 - e * (eff / 10000)) 0 :=
        lt_of_lt_of_le hnetpos h2
      have h4 : 0 < max (t1 - e) 0 - e * (eff / 10000) := by
        by_contra hc4
        push_neg at hc4
        rw [max_eq_right hc4] at h3
        exact lt_irrefl 0 h3
      have h6 : 0 < max (t1 - e) 0 := by linarith
      have h7 : 0 < t1 - e := by
        by_contra hc7
        push_neg at hc7
        rw [max_eq_right hc7] at h6
        exact lt_irrefl 0 h6
      exact ⟨by linarith, by linarith⟩

theorem roundToPaise_idem (x : ℚ) :
    roundToPaise (roundToPaise x) = roundToPaise x := by
  unfold roundToPaise jsRound
  rw [div_mul_cancel₀ _ (by norm_num : (100:ℚ) ≠ 0)]
  rw [Int.floor_int_add]
  norm_num

theorem chooseSwingStrategy_pos (b : SwingArgs) (atrPct nRSI gap : ℚ)
    (hp : 0 < b.price) : 0 < (chooseSwingStrategy b atrPct nRSI gap).1 := by
  unfold chooseSwingStrategy
  dsimp only
  by_cases hb1 : finPos b.swingVWAP = true ∧ b.swingVWAP.getD 0 < b.price ∧
      45 ≤ nRSI ∧ nRSI ≤ 72
  · rw [if_pos hb1]
    have hv := finPos_pos hb1.1
    have hb : 0 < clampQ (atrPct * (18/100)) (12/100) (45/100) :=
      clampQ_pos (by norm_num) (by norm_num)
    simp only [if_pos hb1.1]
    split_ifs
    · exact lt_min hp (mul_pos hv (by linarith))
    · exact hp
  · rw [if_neg hb1]
    rcases hsup : validPosOpt b.support with _ | s <;>
      rcases hres : validPosOpt b.resistance with _ | r <;>
      simp only [hsup, hres, Option.getD_some] <;>
      split_ifs <;>
      first
        | contradiction
        | exact hp
        | (refine lt_min hp (mul_pos (validPosOpt_pos hsup) ?_)
           have hb := @clampQ_pos (atrPct * (1/10)) (8/100) (3/10)
             (by norm_num) (by norm_num)
           linarith)
        | (refine lt_min hp (mul_pos (validPosOpt_pos hres) ?_)
           have hb := @clampQ_pos (atrPct * (8/100)) (5/100) (25/100)
             (by norm_num) (by norm_num)
           linarith)

theorem swingStopAndRisk_risk_nonneg (b : SwingArgs)
    (atrPct atrMove entry : ℚ) (ty : String) (he : 0 ≤ entry) :
    0 ≤ (swingStopAndRisk b atrPct atrMove entry ty).2 := by
  unfold swingStopAndRisk
  dsimp only
  apply clampQ_nonneg
  · exact mul_nonneg he (div_nonneg
      (le_of_lt (clampQ_pos (by norm_num) (by norm_num))) (by norm_num))
  · exact mul_nonneg he (div_nonneg
      (le_of_lt (clampQ_pos (by norm_num) (by norm_num))) (by norm_num))

theorem swingStopAndRisk_stop_le (b : SwingArgs)
    (atrPct atrMove entry : ℚ) (ty : String) (he : 0 ≤ entry) :
    (swingStopAndRisk b atrPct atrMove entry ty).1 ≤ entry := by
  have hr := swingStopAndRisk_risk_nonneg b atrPct atrMove entry ty he
  unfold swingStopAndRisk at hr ⊢
  dsimp only at hr ⊢
  linarith

theorem swingTargets_le (b : SwingArgs)
    (atrPct atrMove entry risk nRSI gap : ℚ) (ty : String) (he : 0 ≤ entry) :
    (swingTargets b atrPct atrMove entry risk nRSI gap ty).1 ≤
      (swingTargets b atrPct atrMove entry risk nRSI gap ty).2 := by
  unfold swingTargets
  dsimp only
  apply le_applyMinT2Gap
  exact le_trans (mul_nonneg he (by norm_num)) (le_max_left _ _)

theorem swingPlanParts_entry (b : SwingArgs) (hp : 0 < b.price) :
    0 ≤ (swingPlanParts b).entry ∧
    (swingPlanParts b).entry ≤ roundToPaise b.price := by
  have h1 := chooseSwingStrategy_pos b (swingAtrPct b.volatilityPct)
    (b.rsi.getD 50) (b.gapNowPct.getD (b.gapOpenPct.getD 0)) hp
  unfold swingPlanParts
  dsimp only
  constructor
  · exact roundToPaise_nonneg (le_min (le_of_lt h1) (le_of_lt hp))
  · exact roundToPaise_mono (min_le_right _ _)

theorem swingPlanParts_stop_le_entry (b : SwingArgs) (hp : 0 < b.price) :
    (swingPlanParts b).stop ≤ (swingPlanParts b).entry := by
  have h1 := chooseSwingStrategy_pos b (swingAtrPct b.volatilityPct)
    (b.rsi.getD 50) (b.gapNowPct.getD (b.gapOpenPct.getD 0)) hp
  have he : (0:ℚ) ≤ roundToPaise (min (chooseSwingStrategy b
      (swingAtrPct b.volatilityPct) (b.rsi.getD 50)
      (b.gapNowPct.getD (b.gapOpenPct.getD 0))).1 b.price) :=
    roundToPaise_nonneg (le_min (le_of_lt h1) (le_of_lt hp))
  unfold swingPlanParts
  dsimp only
  refine le_trans (roundToPaise_mono (swingStopAndRisk_stop_le b _ _ _ _ he)) ?_
  exact le_of_eq (roundToPaise_idem _)

theorem swingPlanParts_t1_le_t2 (b : SwingArgs) (hp : 0 < b.price) :
    (swingPlanParts b).t1 ≤ (swingPlanParts b).t2 := by
  have h1 := chooseSwingStrategy_pos b (swingAtrPct b.volatilityPct)
    (b.rsi.getD 50) (b.gapNowPct.getD (b.gapOpenPct.getD 0)) hp
  have he : (0:ℚ) ≤ roundToPaise (min (chooseSwingStrategy b
      (swingAtrPct b.volatilityPct) (b.rsi.getD 50)
      (b.gapNowPct.getD (b.gapOpenPct.getD 0))).1 b.price) :=
    roundToPaise_nonneg (le_min (le_of_lt h1) (le_of_lt hp))
  unfold swingPlanParts
  dsimp only
  apply roundToPaise_mono
  exact swingTargets_le b _ _ _ _ _ _ _ he

unseal Rat.add Rat.sub Rat.mul Rat.inv Rat.ofScientific in
/-- C1 counterexample: at market price 1 with VWAP 0.90, RSI 48 and a volume
spike, calculateIntradayEntryPrice returns a NON-rejected trend_continuation
plan whose target1 = 0.97 lies BELOW the market price, refuting the claimed
chain entryPrice ≤ marketPrice < target1. -/
theorem claim_C1_counterexample :
    (calculateIntradayEntryPrice demoC1Args).entryType = "trend_continuation" ∧
    (calculateIntradayEntryPrice demoC1Args).target1 = some (97/100) ∧
    demoC1Args.price = 1 ∧ ¬(demoC1Args.price < (97/100 : ℚ)) := by
  decide

/-- C1 (amended): on a positive market price, every non-rejected intraday
plan (entryType not rr_weak / scalp_only / invalid) satisfies
stopLoss < entryPrice < target1 ≤ target2 with entryPrice ≤ the rounded
market price, and every swing plan satisfies stopLoss ≤ entryPrice ≤ the
rounded market price and target1 ≤ target2; the originally claimed
marketPrice < target1 is false (resistance caps can push target1 below
market), the swing orderings are not strict after rounding, and
target1 < target2 can collapse to equality under the 2-decimal rounding. -/
theorem claim_C1_plan_ordering (a : EntryArgs) (b : SwingArgs)
    (hpa : 0 < a.price) (hpb : 0 < b.price)
    (h1 : (calculateIntradayEntryPrice a).entryType ≠ "rr_weak")
    (h2 : (calculateIntradayEntryPrice a).entryType ≠ "scalp_only")
    (h3 : (calculateIntradayEntryPrice a).entryType ≠ "invalid") :
    (∃ e s t1 t2 : ℚ,
      (calculateIntradayEntryPrice a).entryPrice = some e ∧
      (calculateIntradayEntryPrice a).stopLoss = some s ∧
      (calculateIntradayEntryPrice a).target1 = some t1 ∧
      (calculateIntradayEntryPrice a).target2 = some t2 ∧
      s < e ∧ e < t1 ∧ t1 ≤ t2 ∧ e ≤ roundToPaise a.price) ∧
    (∃ e s t1 t2 : ℚ,
      (calculateSwingEntryPrice b).entryPrice = some e ∧
      (calculateSwingEntryPrice b).stopLoss = some s ∧
      (calculateSwingEntryPrice b).target1 = some t1 ∧
      (calculateSwingEntryPrice b).target2 = some t2 ∧
      s ≤ e ∧ t1 ≤ t2 ∧ e ≤ roundToPaise b.price) := by
  constructor
  · unfold calculateIntradayEntryPrice at h1 h2 h3 ⊢
    rw [if_neg (not_le.mpr hpa)] at h1 h2 h3 ⊢
    dsimp only at h1 h2 h3 ⊢
    by_cases hscalp : intradayExtensionLimit (intradayAtrPct a.volatilityPct) <
        vwapExtensionOf a.price a.vwap ∧ ¬a.volumeSpike = true ∧
        60 < a.rsi.getD 50
    · rw [if_pos hscalp] at h2
      exact absurd rfl h2
    · rw [if_neg hscalp] at h1 ⊢
      by_cases hrr : (planRRNet (intradayPlanParts a).entry
          (intradayPlanParts a).stop (intradayPlanParts a).t1
          DEFAULT_INTRADAY_ROUND_TRIP_COST_BPS).getD 0 < 1
      · rw [if_pos hrr] at h1
        exact absurd rfl h1
      · rw [if_neg hrr]
        have hord := planRRNet_ge_one_order (le_of_not_lt hrr)
        exact ⟨(intradayPlanParts a).entry, (intradayPlanParts a).stop,
          (intradayPlanParts a).t1, (intradayPlanParts a).t2,
          rfl, rfl, rfl, rfl, hord.1, hord.2,
          intradayPlanParts_t1_le_t2 a hpa, (intradayPlanParts_entry a hpa).2⟩
  · unfold calculateSwingEntryPrice
    rw [if_neg (not_le.mpr hpb)]
    dsimp only
    exact ⟨(swingPlanParts b).entry, (swingPlanParts b).stop,
      (swingPlanParts b).t1, (swingPlanParts b).t2, rfl, rfl, rfl, rfl,
      swingPlanParts_stop_le_entry b hpb, swingPlanParts_t1_le_t2 b hpb,
      (swingPlanParts_entry b hpb).2⟩

unseal Rat.add Rat.sub Rat.mul Rat.inv Rat.ofScientific in
theorem claim_C1_plan_ordering_witness :
    ((0:ℚ) < demoC1Args.price ∧ (0:ℚ) < demoSwingArgs.price ∧
     (calculateIntradayEntryPrice demoC1Args).entryType ≠ "rr_weak" ∧
     (calculateIntradayEntryPrice demoC1Args).entryType ≠ "scalp_only" ∧
     (calculateIntradayEntryPrice demoC1Args).entryType ≠ "invalid") ∧
    ((∃ e s t1 t2 : ℚ,
      (calculateIntradayEntryPrice demoC1Args).entryPrice = some e ∧
      (calculateIntradayEntryPrice demoC1Args).stopLoss = some s ∧
      (calculateIntradayEntryPrice demoC1Args).target1 = some t1 ∧
      (calculateIntradayEntryPrice demoC1Args).target2 = some t2 ∧
      s < e ∧ e < t1 ∧ t1 ≤ t2 ∧ e ≤ roundToPaise demoC1Args.price) ∧
    (∃ e s t1 t2 : ℚ,
      (calculateSwingEntryPrice demoSwingArgs).entryPrice = some e ∧
      (calculateSwingEntryPrice demoSwingArgs).stopLoss = some s ∧
      (calculateSwingEntryPrice demoSwingArgs).target1 = some t1 ∧
      (calculateSwingEntryPrice demoSwingArgs).target2 = some t2 ∧
      s ≤ e ∧ t1 ≤ t2 ∧ e ≤ roundToPaise demoSwingArgs.price)) :=
  ⟨⟨by decide, by decide, by decide, by decide, by decide⟩,
   claim_C1_plan_ordering demoC1Args demoSwingArgs (by decide) (by decide)
     (by decide) (by decide) (by decide)⟩

/-! ### Claim C3: backtest determinism and dedup -/

theorem persistBacktestRunFile_filter {l : List BRun} {run : BRun}
    {p : BRun → Bool} (hl : ∀ r ∈ l, p r = false) (hrun : p run = true) :
    (persistBacktestRunFile l run).filter p = [run] := by
  have hfl : l.filter p = [] := List.filter_eq_nil.mpr fun a ha => by
    simp [hl a ha]
  unfold persistBacktestRunFile
  dsimp only
  split_ifs with h
  · have hk : (l ++ [run]).length - BACKTEST_HISTORY_LIMIT ≤ l.length := by
      simp only [List.length_append, List.length_singleton,
        BACKTEST_HISTORY_LIMIT] at h ⊢
      omega
    rw [List.drop_append_of_le_length hk, List.filter_append]
    have hdrop : (l.drop ((l ++ [run]).length -
        BACKTEST_HISTORY_LIMIT)).filter p = [] := by
      apply List.filter_eq_nil.mpr
      intro a ha
      simp [hl a (List.mem_of_mem_drop ha)]
    rw [hdrop]
    simp [List.filter_cons, hrun]
  · rw [List.filter_append, hfl]
    simp [List.filter_cons, hrun]

theorem finalize_pair (runs0 : List BRun) (r1 r2 : BRun)
    (hkey : sameRunKey r1 r2 = true)
    (hpay : comparableRunPayload r2 = comparableRunPayload r1)
    (hid : r1.id ≠ "")
    (hclean1 : ∀ r ∈ runs0, sameRunKey r r1 = false)
    (hclean2 : ∀ r ∈ runs0, sameRunKey r r2 = false) :
    (finalizeBacktestRun runs0 r1).1.persisted = true ∧
    (finalizeBacktestRun (finalizeBacktestRun runs0 r1).2 r2).1 =
      ⟨r1.id, false, some r1.id, "file"⟩ ∧
    (finalizeBacktestRun (finalizeBacktestRun runs0 r1).2 r2).2 =
      (finalizeBacktestRun runs0 r1).2 := by
  have hfilter1 : runs0.filter (sameRunKey · r1) = [] :=
    List.filter_eq_nil.mpr fun a ha => by simp [hclean1 a ha]
  have hlat1 : latestComparableRun runs0 r1 = none := by
    unfold latestComparableRun
    rw [hfilter1]
    rfl
  have hpr1 : persistBacktestRunWithDedup runs0 r1 =
      (⟨true, "file", none⟩, persistBacktestRunFile runs0 r1) := by
    unfold persistBacktestRunWithDedup
    rw [hlat1]
  have hfin1 : finalizeBacktestRun runs0 r1 =
      (⟨r1.id, true, none, "file"⟩, persistBacktestRunFile runs0 r1) := by
    unfold finalizeBacktestRun
    rw [hpr1]
    rfl
  have hfilter2 : (persistBacktestRunFile runs0 r1).filter
      (sameRunKey · r2) = [r1] :=
    persistBacktestRunFile_filter hclean2 hkey
  have hlat2 : latestComparableRun (persistBacktestRunFile runs0 r1) r2 =
      some r1 := by
    unfold latestComparableRun
    rw [hfilter2]
    rfl
  have hsame : isSameBacktestOutcome r2 r1 = true := by
    simp [isSameBacktestOutcome, hpay]
  have hpr2 : persistBacktestRunWithDedup (persistBacktestRunFile runs0 r1)
      r2 = (⟨false, "file", some r1.id⟩, persistBacktestRunFile runs0 r1) := by
    unfold persistBacktestRunWithDedup
    rw [hlat2]
    dsimp only
    rw [if_pos hsame, if_neg hid]
  have hfin2 : finalizeBacktestRun (persistBacktestRunFile runs0 r1) r2 =
      (⟨r1.id, false, some r1.id, "file"⟩,
       persistBacktestRunFile runs0 r1) := by
    unfold finalizeBacktestRun
    rw [hpr2]
    rfl
  refine ⟨?_, ?_, ?_⟩
  · rw [hfin1]
  · rw [hfin1, hfin2]
  · rw [hfin1, hfin2]

/-- C3: replaying the backtest on the identical snapshot, trade date,
capital, allocation mode and candle history yields identical trades, and —
starting from a history with no run under the same
(tradeDate, capital, allocationMode, snapshotId) key — the first run is
persisted while the replay is reported as an unpersisted duplicate of the
first run's id and leaves the stored history unchanged. -/
theorem claim_C3_backtest_idempotent
    (snap : Snapshot) (tradeDate : String) (capital : ℚ)
    (allocationMode : Option String) (snapshotMode id1 c1 id2 c2 : String)
    (data : String → String → List CandleIn)
    (runs0 : List BRun) (run1 run2 : BRun)
    (hcap : ¬capital ≤ 0)
    (hr1 : computeBacktestRun snap tradeDate capital allocationMode
      snapshotMode id1 c1 data = .ok run1)
    (hr2 : computeBacktestRun snap tradeDate capital allocationMode
      snapshotMode id2 c2 data = .ok run2)
    (hid : run1.id ≠ "")
    (hclean : ∀ r ∈ runs0, sameRunKey r run1 = false) :
    run2.trades = run1.trades ∧
    (finalizeBacktestRun runs0 run1).1.persisted = true ∧
    (finalizeBacktestRun (finalizeBacktestRun runs0 run1).2 run2).1 =
      ⟨run1.id, false, some run1.id, "file"⟩ ∧
    (finalizeBacktestRun (finalizeBacktestRun runs0 run1).2 run2).2 =
      (finalizeBacktestRun runs0 run1).2 := by
  have hpicks : ¬ sanitizePicks snap.picks = [] := by
    intro hnil
    unfold computeBacktestRun at hr1
    rw [if_neg hcap, if_pos hnil] at hr1
    exact Except.noConfusion hr1
  unfold computeBacktestRun at hr1 hr2
  rw [if_neg hcap, if_neg hpicks] at hr1 hr2
  obtain rfl := Except.ok.inj hr1
  obtain rfl := Except.ok.inj hr2
  have hfp := finalize_pair runs0
    (mkBacktestRun snap tradeDate capital
      (normalizeAllocationMode allocationMode) snapshotMode id1 c1 data)
    (mkBacktestRun snap tradeDate capital
      (normalizeAllocationMode allocationMode) snapshotMode id2 c2 data)
    (by simp only [sameRunKey, Bool.and_eq_true, decide_eq_true_eq]
        exact ⟨⟨⟨rfl, rfl⟩, rfl⟩, rfl⟩) rfl hid hclean hclean
  exact ⟨rfl, hfp.1, hfp.2.1, hfp.2.2⟩

unseal Rat.add Rat.sub Rat.mul Rat.inv Rat.ofScientific in
theorem claim_C3_backtest_idempotent_witness :
    (¬(100000:ℚ) ≤ 0 ∧
     computeBacktestRun demoSnap "2025-01-06" 100000 none "latest" "run-1"
       "2025-01-06T10:00:00.000Z" demoData = .ok demoBRun1 ∧
     computeBacktestRun demoSnap "2025-01-06" 100000 none "latest" "run-2"
       "2025-01-06T10:05:00.000Z" demoData = .ok demoBRun2 ∧
     demoBRun1.id ≠ "" ∧
     ∀ r ∈ ([] : List BRun), sameRunKey r demoBRun1 = false) ∧
    (demoBRun2.trades = demoBRun1.trades ∧
     (finalizeBacktestRun [] demoBRun1).1.persisted = true ∧
     (finalizeBacktestRun (finalizeBacktestRun [] demoBRun1).2 demoBRun2).1 =
       ⟨demoBRun1.id, false, some demoBRun1.id, "file"⟩ ∧
     (finalizeBacktestRun (finalizeBacktestRun [] demoBRun1).2 demoBRun2).2 =
       (finalizeBacktestRun [] demoBRun1).2) :=
  ⟨⟨by decide, by decide, by decide, by decide, by simp⟩,
   claim_C3_backtest_idempotent demoSnap "2025-01-06" 100000 none "latest"
     "run-1" "2025-01-06T10:00:00.000Z" "run-2" "2025-01-06T10:05:00.000Z"
     demoData [] demoBRun1 demoBRun2 (by decide) (by decide) (by decide)
     (by decide) (by simp)⟩

end SignalX
